import Mathlib

/-!
Verification of the portfolio visual-effects scripts.

The JavaScript sources are embedded shallowly:

* JavaScript numbers (IEEE doubles) are modelled by `JSQ`: every double value
  that actually occurs is a rational, plus the special values `NaN`,
  `Infinity`, `-Infinity`; the extra constructor `undef` stands for a value
  whose `typeof` is not `"number"` (in particular a missing object field,
  which JavaScript reads as `undefined`).  Arithmetic on `undef` yields `NaN`,
  exactly as in JavaScript.
* Calls into the host environment (`Math.sin`, `Math.cos`, `Math.PI`,
  `Math.random`, `Date.now`, `performance.now`, `window.innerWidth`,
  `window.scrollY`, canvas sizes) are threaded as explicit parameters; for
  `Math.random` a stream `rand : Nat → ℚ` is threaded with an index counter,
  consumed in the source order of the `Math.random()` calls.
* Mutable objects become Lean structures, and each method that mutates
  `this` becomes a function from the old state to (result, new state).
-/

/-- Model of a JavaScript number-ish value: a finite double (held exactly as
a rational), `NaN`, the two infinities, or a non-number value (`undefined`
or any value whose `typeof` is not `"number"`). -/
inductive JSQ where
  | undef
  | nan
  | inf
  | ninf
  | num (q : ℚ)
deriving Repr, DecidableEq

namespace JSQ

/-- JavaScript `typeof x === 'number'`: true for finite numbers, `NaN` and
the infinities, false for `undef`. -/
def isNumberType : JSQ → Bool
  | undef => false
  | _ => true

/-- JavaScript `isFinite(x)`: true only for finite numbers. -/
def isFiniteJ : JSQ → Bool
  | num _ => true
  | _ => false

/-- JavaScript unary minus. -/
def neg : JSQ → JSQ
  | num q => num (-q)
  | inf => ninf
  | ninf => inf
  | _ => nan

/-- JavaScript addition (`undefined` coerces to `NaN`). -/
def add : JSQ → JSQ → JSQ
  | num a, num b => num (a + b)
  | num _, inf => inf
  | inf, num _ => inf
  | inf, inf => inf
  | num _, ninf => ninf
  | ninf, num _ => ninf
  | ninf, ninf => ninf
  | _, _ => nan

/-- JavaScript subtraction. -/
def sub (a b : JSQ) : JSQ := add a (neg b)

/-- JavaScript multiplication. -/
def mul : JSQ → JSQ → JSQ
  | num a, num b => num (a * b)
  | num a, inf => if 0 < a then inf else if a < 0 then ninf else nan
  | inf, num a => if 0 < a then inf else if a < 0 then ninf else nan
  | num a, ninf => if 0 < a then ninf else if a < 0 then inf else nan
  | ninf, num a => if 0 < a then ninf else if a < 0 then inf else nan
  | inf, inf => inf
  | ninf, ninf => inf
  | inf, ninf => ninf
  | ninf, inf => ninf
  | _, _ => nan

/-- JavaScript division (restricted to the shapes the sources produce:
a finite numerator over a finite denominator, with `x/0` giving a signed
infinity as in JavaScript's positive zero). -/
def div : JSQ → JSQ → JSQ
  | num a, num b =>
      if b = 0 then (if a = 0 then nan else if 0 < a then inf else ninf)
      else num (a / b)
  | num _, inf => num 0
  | num _, ninf => num 0
  | inf, num b => if 0 ≤ b then inf else ninf
  | ninf, num b => if 0 ≤ b then ninf else inf
  | _, _ => nan

/-- JavaScript `<` (false whenever either side is `NaN` or `undefined`). -/
def ltJ : JSQ → JSQ → Bool
  | num a, num b => decide (a < b)
  | num _, inf => true
  | ninf, num _ => true
  | ninf, inf => true
  | _, _ => false

/-- JavaScript `<=` (false whenever either side is `NaN` or `undefined`). -/
def leJ : JSQ → JSQ → Bool
  | num a, num b => decide (a ≤ b)
  | num _, inf => true
  | ninf, num _ => true
  | ninf, inf => true
  | inf, inf => true
  | ninf, ninf => true
  | _, _ => false

/-- JavaScript `>`. -/
def gtJ (a b : JSQ) : Bool := ltJ b a

/-- JavaScript `>=`. -/
def geJ (a b : JSQ) : Bool := leJ b a

/-- JavaScript `||` with a numeric default: the left value when it is a
truthy number, the default otherwise (`0`, `NaN` and `undefined` are falsy). -/
def orDefault : JSQ → ℚ → ℚ
  | num q, d => if q = 0 then d else q
  | _, d => d

/-- Application of the host `Math.sin` (modelled by a parameter `sinQ` on the
finite values) to a JavaScript number: any non-finite argument gives `NaN`. -/
def sinJ (sinQ : ℚ → ℚ) : JSQ → JSQ
  | num q => num (sinQ q)
  | _ => nan

/-- Application of the host `Math.cos` (modelled by a parameter `cosQ` on the
finite values) to a JavaScript number: any non-finite argument gives `NaN`. -/
def cosJ (cosQ : ℚ → ℚ) : JSQ → JSQ
  | num q => num (cosQ q)
  | _ => nan

end JSQ

/-- A 2-d velocity, as the `{ x, y }` object held in
`CursorTracker.velocity` (src/cursor-system.js). -/
structure Velocity where
  x : ℚ
  y : ℚ
deriving Repr, DecidableEq

/-- The snapshot object stored in `CursorTracker.lastValidState`
(src/cursor-system.js lines 845-853). -/
structure ValidState where
  x : ℚ
  y : ℚ
  previousX : ℚ
  previousY : ℚ
  velocity : Velocity
  timestamp : ℚ
  version : ℕ
deriving Repr, DecidableEq

/-- The mutable state of the `CursorTracker` class
(src/cursor-system.js lines 780-801).  Stored coordinates are finite doubles
(the constructor writes `0` and `updatePosition` only stores validated finite
values), so they are held as rationals; `stateVersion` only ever holds
non-negative integers, so it is held as a natural number. -/
structure CursorTracker where
  mouseX : ℚ
  mouseY : ℚ
  previousX : ℚ
  previousY : ℚ
  isTracking : Bool
  isInitialized : Bool
  velocity : Velocity
  lastUpdateTime : ℚ
  stateVersion : ℕ
  lastValidState : Option ValidState
deriving Repr, DecidableEq

namespace CursorTracker

/-- The `CursorTracker` constructor (src/cursor-system.js lines 781-801). -/
def initial : CursorTracker :=
  { mouseX := 0
    mouseY := 0
    previousX := 0
    previousY := 0
    isTracking := true
    isInitialized := false
    velocity := { x := 0, y := 0 }
    lastUpdateTime := 0
    stateVersion := 0
    lastValidState := none }

/-- `CursorTracker.isValidPosition(x, y)` (src/cursor-system.js lines
889-904): `x` and `y` must be numbers, finite, non-negative, and bounded by
twice the window dimensions.  `innerW` and `innerH` model
`window.innerWidth` and `window.innerHeight`. -/
def isValidPosition (innerW innerH : ℚ) (x y : JSQ) : Bool :=
  x.isNumberType && y.isNumberType &&
  x.isFiniteJ && y.isFiniteJ &&
  x.geJ (.num 0) && y.geJ (.num 0) &&
  x.leJ (.num (innerW * 2)) && y.leJ (.num (innerH * 2))

/-- `CursorTracker.updatePosition(x, y)` (src/cursor-system.js lines
807-856).  `now` models the value of `performance.now()` taken during this
call.  Returns the boolean result together with the updated tracker. -/
def updatePosition (innerW innerH now : ℚ) (x y : JSQ) (s : CursorTracker) :
    Bool × CursorTracker :=
  if !s.isTracking then (false, s)
  else if !isValidPosition innerW innerH x y then (false, s)
  else
    match x, y with
    | .num qx, .num qy =>
        let previousX := s.mouseX
        let previousY := s.mouseY
        let velocity :=
          if s.lastUpdateTime > 0 ∧ now - s.lastUpdateTime > 0 then
            { x := (qx - s.mouseX) / (now - s.lastUpdateTime)
              y := (qy - s.mouseY) / (now - s.lastUpdateTime) : Velocity }
          else s.velocity
        let version := s.stateVersion + 1
        (true,
          { mouseX := qx
            mouseY := qy
            previousX := previousX
            previousY := previousY
            isTracking := s.isTracking
            isInitialized := true
            velocity := velocity
            lastUpdateTime := now
            stateVersion := version
            lastValidState := some
              { x := qx
                y := qy
                previousX := previousX
                previousY := previousY
                velocity := velocity
                timestamp := now
                version := version } })
    | _, _ => (false, s)

/-- The record returned by `CursorTracker.getCurrentPosition`
(src/cursor-system.js lines 862-868). -/
structure PositionResult where
  x : ℚ
  y : ℚ
  isValid : Bool
deriving Repr, DecidableEq

/-- `CursorTracker.getCurrentPosition()` (src/cursor-system.js lines
862-868).  The method body contains no assignment to `this`, so the embedded
state component is returned unchanged. -/
def getCurrentPosition (innerW innerH : ℚ) (s : CursorTracker) :
    PositionResult × CursorTracker :=
  ({ x := s.mouseX
     y := s.mouseY
     isValid := s.isInitialized &&
       isValidPosition innerW innerH (.num s.mouseX) (.num s.mouseY) }, s)

/-- The frozen record returned by `CursorTracker.createStateSnapshot`
(src/cursor-system.js lines 1043-1055). -/
structure StateSnapshot where
  positionX : ℚ
  positionY : ℚ
  previousX : ℚ
  previousY : ℚ
  velocity : Velocity
  isTracking : Bool
  isInitialized : Bool
  stateVersion : ℕ
  timestamp : ℚ
deriving Repr, DecidableEq

/-- `CursorTracker.createStateSnapshot()` (src/cursor-system.js lines
1043-1055).  The method body contains no assignment to `this`, so the
embedded state component is returned unchanged. -/
def createStateSnapshot (s : CursorTracker) : StateSnapshot × CursorTracker :=
  ({ positionX := s.mouseX
     positionY := s.mouseY
     previousX := s.previousX
     previousY := s.previousY
     velocity := s.velocity
     isTracking := s.isTracking
     isInitialized := s.isInitialized
     stateVersion := s.stateVersion
     timestamp := s.lastUpdateTime }, s)

/-- `CursorTracker.resetToOrigin()` (src/cursor-system.js lines 976-988). -/
def resetToOrigin (s : CursorTracker) : CursorTracker :=
  { mouseX := 0
    mouseY := 0
    previousX := 0
    previousY := 0
    isTracking := s.isTracking
    isInitialized := false
    velocity := { x := 0, y := 0 }
    lastUpdateTime := 0
    stateVersion := 0
    lastValidState := none }

/-- `CursorTracker.recoverState()` (src/cursor-system.js lines 951-970).
`now` models `performance.now()`. -/
def recoverState (now : ℚ) (s : CursorTracker) : Bool × CursorTracker :=
  match s.lastValidState with
  | none => (false, resetToOrigin s)
  | some v =>
      (true,
        { s with
            mouseX := v.x
            mouseY := v.y
            previousX := v.previousX
            previousY := v.previousY
            velocity := v.velocity
            stateVersion := v.version + 1
            lastUpdateTime := now })

/-- `CursorTracker.getMovementDistance()` (src/cursor-system.js lines
1015-1023).  `Math.sqrt` is modelled by the parameter `sqrtQ`. -/
def getMovementDistance (sqrtQ : ℚ → ℚ) (s : CursorTracker) : ℚ :=
  if !s.isInitialized then 0
  else
    let dx := s.mouseX - s.previousX
    let dy := s.mouseY - s.previousY
    sqrtQ (dx * dx + dy * dy)

end CursorTracker


/-- An externally triggered operation on the cursor tracker: a pointer
update (with its `performance.now()` timestamp and raw coordinates), a
recovery pass, or a reset (src/cursor-system.js). -/
inductive TrackerOp where
  | update (now : ℚ) (x y : JSQ)
  | recover (now : ℚ)
  | reset
deriving Repr, DecidableEq

/-- One tracker operation applied to a tracker state. -/
def trackerStep (innerW innerH : ℚ) : TrackerOp → CursorTracker → CursorTracker
  | .update now x y, s => (CursorTracker.updatePosition innerW innerH now x y s).2
  | .recover now, s => (CursorTracker.recoverState now s).2
  | .reset, s => CursorTracker.resetToOrigin s

/-- A sequence of tracker operations applied in order. -/
def trackerRun (innerW innerH : ℚ) (ops : List TrackerOp) (s : CursorTracker) :
    CursorTracker :=
  ops.foldl (fun t op => trackerStep innerW innerH op t) s

/-- Consistency between `stateVersion` and the stored snapshot, maintained by
the tracker's own operations: with no snapshot the version is `0` (the
constructor's state), and with a snapshot the version exceeds the snapshot's
version by at most one (equality after `updatePosition`, one more after
`recoverState`). -/
def versionInv (s : CursorTracker) : Bool :=
  match s.lastValidState with
  | none => decide (s.stateVersion = 0)
  | some v => decide (s.stateVersion ≤ v.version + 1)

theorem updatePosition_version_mono (innerW innerH now : ℚ) (x y : JSQ)
    (s : CursorTracker) :
    s.stateVersion ≤
      (CursorTracker.updatePosition innerW innerH now x y s).2.stateVersion := by
  unfold CursorTracker.updatePosition
  split
  · exact le_refl _
  · split
    · exact le_refl _
    · split
      · exact Nat.le_succ _
      · exact le_refl _

theorem updatePosition_versionInv (innerW innerH now : ℚ) (x y : JSQ)
    (s : CursorTracker) (h : versionInv s = true) :
    versionInv (CursorTracker.updatePosition innerW innerH now x y s).2 = true := by
  unfold CursorTracker.updatePosition
  split
  · exact h
  · split
    · exact h
    · split
      · simp [versionInv]
      · exact h

theorem updatePosition_success_version (innerW innerH now : ℚ) (x y : JSQ)
    (s : CursorTracker)
    (h : (CursorTracker.updatePosition innerW innerH now x y s).1 = true) :
    (CursorTracker.updatePosition innerW innerH now x y s).2.stateVersion =
      s.stateVersion + 1 := by
  unfold CursorTracker.updatePosition at h ⊢
  split at h
  · simp at h
  · split at h
    · simp at h
    · split at h
      · simp_all
      · simp at h

theorem recoverState_version_mono (now : ℚ) (s : CursorTracker)
    (h : versionInv s = true) :
    s.stateVersion ≤ (CursorTracker.recoverState now s).2.stateVersion := by
  unfold CursorTracker.recoverState
  unfold versionInv at h
  cases hv : s.lastValidState with
  | none =>
      rw [hv] at h
      simp only [decide_eq_true_eq] at h
      simp [CursorTracker.resetToOrigin, h]
  | some v =>
      rw [hv] at h
      simp only [decide_eq_true_eq] at h
      simpa using h

theorem recoverState_versionInv (now : ℚ) (s : CursorTracker)
    (_h : versionInv s = true) :
    versionInv (CursorTracker.recoverState now s).2 = true := by
  unfold CursorTracker.recoverState
  cases hv : s.lastValidState with
  | none => simp [versionInv, CursorTracker.resetToOrigin]
  | some v => simp [versionInv, hv]

theorem trackerRun_version_mono (innerW innerH : ℚ) (ops : List TrackerOp)
    (s : CursorTracker) (hInv : versionInv s = true)
    (hNoReset : ∀ op ∈ ops, op ≠ TrackerOp.reset) :
    s.stateVersion ≤ (trackerRun innerW innerH ops s).stateVersion ∧
      versionInv (trackerRun innerW innerH ops s) = true := by
  induction ops generalizing s with
  | nil => exact ⟨le_refl _, hInv⟩
  | cons op rest ih =>
      have hop : op ≠ TrackerOp.reset := hNoReset op (List.mem_cons_self op rest)
      have hrest : ∀ o ∈ rest, o ≠ TrackerOp.reset := fun o ho =>
        hNoReset o (List.mem_cons_of_mem op ho)
      have hstep : s.stateVersion ≤ (trackerStep innerW innerH op s).stateVersion ∧
          versionInv (trackerStep innerW innerH op s) = true := by
        cases op with
        | update now x y =>
            exact ⟨updatePosition_version_mono innerW innerH now x y s,
              updatePosition_versionInv innerW innerH now x y s hInv⟩
        | recover now =>
            exact ⟨recoverState_version_mono now s hInv,
              recoverState_versionInv now s hInv⟩
        | reset => exact absurd rfl hop
      have h2 := ih (trackerStep innerW innerH op s) hstep.2 hrest
      exact ⟨le_trans hstep.1 h2.1, h2.2⟩

/-- C2: for every tracker state and every input pair rejected by
`CursorTracker.isValidPosition` (not a number, non-finite, negative, or
beyond twice the viewport), `CursorTracker.updatePosition` returns `false`
and leaves the whole tracker state — current and previous position,
velocity, state version, last-valid snapshot — unchanged. -/
theorem updatePosition_rejects_invalid (innerW innerH now : ℚ) (x y : JSQ)
    (s : CursorTracker)
    (h : CursorTracker.isValidPosition innerW innerH x y = false) :
    CursorTracker.updatePosition innerW innerH now x y s = (false, s) := by
  unfold CursorTracker.updatePosition
  split
  · rfl
  · simp [h]

/-- Witness for C2: after a valid update to `(100, 200)`, the call
`updatePosition(NaN, 50)` is rejected and the position stays `(100, 200)`. -/
theorem updatePosition_rejects_invalid_witness :
    CursorTracker.isValidPosition 500 500 JSQ.nan (JSQ.num 50) = false ∧
    CursorTracker.updatePosition 500 500 7 JSQ.nan (JSQ.num 50)
        (CursorTracker.updatePosition 500 500 5 (JSQ.num 100) (JSQ.num 200)
          CursorTracker.initial).2 =
      (false,
        (CursorTracker.updatePosition 500 500 5 (JSQ.num 100) (JSQ.num 200)
          CursorTracker.initial).2) ∧
    (CursorTracker.updatePosition 500 500 5 (JSQ.num 100) (JSQ.num 200)
        CursorTracker.initial).2.mouseX = 100 ∧
    (CursorTracker.updatePosition 500 500 5 (JSQ.num 100) (JSQ.num 200)
        CursorTracker.initial).2.mouseY = 200 :=
  ⟨rfl,
   updatePosition_rejects_invalid 500 500 7 JSQ.nan (JSQ.num 50) _ rfl,
   by norm_num [CursorTracker.updatePosition, CursorTracker.initial,
     CursorTracker.isValidPosition, JSQ.isNumberType, JSQ.isFiniteJ,
     JSQ.geJ, JSQ.leJ],
   by norm_num [CursorTracker.updatePosition, CursorTracker.initial,
     CursorTracker.isValidPosition, JSQ.isNumberType, JSQ.isFiniteJ,
     JSQ.geJ, JSQ.leJ]⟩

/-- C7 (amended): every successful `updatePosition` increments
`stateVersion` by exactly one, and over any sequence of updates and
recoveries the version never decreases; `resetToOrigin` however sets the
counter back to `0`, so monotonicity does not extend to resets (see the
counterexample). -/
theorem stateVersion_monotonic (innerW innerH : ℚ) (ops : List TrackerOp)
    (s : CursorTracker) (hInv : versionInv s = true)
    (hNoReset : ∀ op ∈ ops, op ≠ TrackerOp.reset) :
    s.stateVersion ≤ (trackerRun innerW innerH ops s).stateVersion ∧
    (∀ now x y,
      (CursorTracker.updatePosition innerW innerH now x y s).1 = true →
      (CursorTracker.updatePosition innerW innerH now x y s).2.stateVersion =
        s.stateVersion + 1) := by
  refine ⟨(trackerRun_version_mono innerW innerH ops s hInv hNoReset).1, ?_⟩
  intro now x y h
  exact updatePosition_success_version innerW innerH now x y s h

/-- Witness for C7: from the freshly constructed tracker, the sequence
update-then-recover never decreases the version, and the update itself bumps
the version from 0 to 1. -/
theorem stateVersion_monotonic_witness :
    CursorTracker.initial.stateVersion ≤
      (trackerRun 500 500
        [TrackerOp.update 5 (JSQ.num 100) (JSQ.num 200), TrackerOp.recover 9]
        CursorTracker.initial).stateVersion ∧
    (CursorTracker.updatePosition 500 500 5 (JSQ.num 100) (JSQ.num 200)
        CursorTracker.initial).2.stateVersion =
      CursorTracker.initial.stateVersion + 1 := by
  have h := stateVersion_monotonic 500 500
    [TrackerOp.update 5 (JSQ.num 100) (JSQ.num 200), TrackerOp.recover 9]
    CursorTracker.initial rfl (by decide)
  refine ⟨h.1, h.2 5 (JSQ.num 100) (JSQ.num 200) ?_⟩
  norm_num [CursorTracker.updatePosition, CursorTracker.initial,
    CursorTracker.isValidPosition, JSQ.isNumberType, JSQ.isFiniteJ,
    JSQ.geJ, JSQ.leJ]

/-- Counterexample to C7 as stated: `resetToOrigin` is one of the tracker
operations, and running it after a successful update takes the version from
1 back to 0 — the version counter does decrease across a sequence that
contains a reset. -/
theorem stateVersion_reset_decreases :
    (trackerRun 500 500 [TrackerOp.update 5 (JSQ.num 100) (JSQ.num 200)]
        CursorTracker.initial).stateVersion = 1 ∧
    (trackerRun 500 500
        [TrackerOp.update 5 (JSQ.num 100) (JSQ.num 200), TrackerOp.reset]
        CursorTracker.initial).stateVersion = 0 ∧ (0 : ℕ) < 1 := by
  norm_num [trackerRun, trackerStep, CursorTracker.updatePosition,
    CursorTracker.initial, CursorTracker.resetToOrigin,
    CursorTracker.isValidPosition, JSQ.isNumberType, JSQ.isFiniteJ,
    JSQ.geJ, JSQ.leJ]

/-- C8: `recoverState` with a stored snapshot restores position, previous
position and velocity from the snapshot and returns `true`; with no
snapshot it resets the tracker to the origin state (position `(0,0)`, zero
velocity, version `0`) and returns `false`. -/
theorem recoverState_spec (now : ℚ) (s : CursorTracker) :
    (∀ v, s.lastValidState = some v →
      (CursorTracker.recoverState now s).1 = true ∧
      (CursorTracker.recoverState now s).2.mouseX = v.x ∧
      (CursorTracker.recoverState now s).2.mouseY = v.y ∧
      (CursorTracker.recoverState now s).2.previousX = v.previousX ∧
      (CursorTracker.recoverState now s).2.previousY = v.previousY ∧
      (CursorTracker.recoverState now s).2.velocity = v.velocity) ∧
    (s.lastValidState = none →
      (CursorTracker.recoverState now s).1 = false ∧
      (CursorTracker.recoverState now s).2 = CursorTracker.resetToOrigin s ∧
      (CursorTracker.recoverState now s).2.mouseX = 0 ∧
      (CursorTracker.recoverState now s).2.mouseY = 0 ∧
      (CursorTracker.recoverState now s).2.velocity = { x := 0, y := 0 } ∧
      (CursorTracker.recoverState now s).2.stateVersion = 0) := by
  constructor
  · intro v hv
    simp [CursorTracker.recoverState, hv]
  · intro hv
    simp [CursorTracker.recoverState, hv, CursorTracker.resetToOrigin]

/-- Witness for C8: after a successful update to `(100, 200)` the recovery
succeeds and restores `(100, 200)`; on the fresh tracker (no snapshot)
recovery fails. -/
theorem recoverState_spec_witness :
    (CursorTracker.recoverState 9
        (CursorTracker.updatePosition 500 500 5 (JSQ.num 100) (JSQ.num 200)
          CursorTracker.initial).2).1 = true ∧
    (CursorTracker.recoverState 9
        (CursorTracker.updatePosition 500 500 5 (JSQ.num 100) (JSQ.num 200)
          CursorTracker.initial).2).2.mouseX = 100 ∧
    (CursorTracker.recoverState 9 CursorTracker.initial).1 = false := by
  have h1 := (recoverState_spec 9
    (CursorTracker.updatePosition 500 500 5 (JSQ.num 100) (JSQ.num 200)
      CursorTracker.initial).2).1
    { x := 100, y := 200, previousX := 0, previousY := 0
      velocity := { x := 0, y := 0 }, timestamp := 5, version := 1 }
    (by norm_num [CursorTracker.updatePosition, CursorTracker.initial,
      CursorTracker.isValidPosition, JSQ.isNumberType, JSQ.isFiniteJ,
      JSQ.geJ, JSQ.leJ])
  have h2 := (recoverState_spec 9 CursorTracker.initial).2 rfl
  exact ⟨h1.1, h1.2.1, h2.1⟩

/-- C9: `getCurrentPosition` and `createStateSnapshot` return snapshots of
the current tracker fields and leave every tracker field unchanged. -/
theorem getCurrentPosition_pure (innerW innerH : ℚ) (s : CursorTracker) :
    (CursorTracker.getCurrentPosition innerW innerH s).2 = s ∧
    (CursorTracker.getCurrentPosition innerW innerH s).1.x = s.mouseX ∧
    (CursorTracker.getCurrentPosition innerW innerH s).1.y = s.mouseY ∧
    (CursorTracker.createStateSnapshot s).2 = s ∧
    (CursorTracker.createStateSnapshot s).1.positionX = s.mouseX ∧
    (CursorTracker.createStateSnapshot s).1.positionY = s.mouseY :=
  ⟨rfl, rfl, rfl, rfl, rfl, rfl⟩

/-- C10: after every successful `updatePosition(x, y)` the previous position
equals the current position held before the call, and `getMovementDistance`
returns the square root of the squared distance between the two most
recently accepted positions; a tracker that has not accepted a first update
reports distance `0`. -/
theorem getMovementDistance_spec (sqrtQ : ℚ → ℚ) (innerW innerH now : ℚ)
    (x y : JSQ) (s s2 : CursorTracker)
    (h : CursorTracker.updatePosition innerW innerH now x y s = (true, s2)) :
    s2.previousX = s.mouseX ∧ s2.previousY = s.mouseY ∧
    CursorTracker.getMovementDistance sqrtQ s2 =
      sqrtQ ((s2.mouseX - s.mouseX) * (s2.mouseX - s.mouseX) +
             (s2.mouseY - s.mouseY) * (s2.mouseY - s.mouseY)) ∧
    (∀ t : CursorTracker, t.isInitialized = false →
      CursorTracker.getMovementDistance sqrtQ t = 0) := by
  unfold CursorTracker.updatePosition at h
  split at h
  · simp at h
  · split at h
    · simp at h
    · split at h
      · simp only [Prod.mk.injEq, true_and] at h
        subst h
        refine ⟨rfl, rfl, rfl, ?_⟩
        intro t ht
        simp [CursorTracker.getMovementDistance, ht]
      · simp at h

/-- Witness for C10: updating the fresh tracker to `(100, 200)` makes the
previous position `(0, 0)` and the movement distance (with the square root
instantiated as the identity on the squared length) `100·100 + 200·200 =
50000`; the fresh tracker itself reports distance `0`. -/
theorem getMovementDistance_spec_witness :
    (CursorTracker.updatePosition 500 500 5 (JSQ.num 100) (JSQ.num 200)
        CursorTracker.initial).2.previousX = 0 ∧
    CursorTracker.getMovementDistance id
        (CursorTracker.updatePosition 500 500 5 (JSQ.num 100) (JSQ.num 200)
          CursorTracker.initial).2 = 50000 ∧
    CursorTracker.getMovementDistance id CursorTracker.initial = 0 := by
  have h := getMovementDistance_spec id 500 500 5 (JSQ.num 100) (JSQ.num 200)
    CursorTracker.initial
    (CursorTracker.updatePosition 500 500 5 (JSQ.num 100) (JSQ.num 200)
      CursorTracker.initial).2
    (Prod.ext (by norm_num [CursorTracker.updatePosition,
      CursorTracker.initial, CursorTracker.isValidPosition,
      JSQ.isNumberType, JSQ.isFiniteJ, JSQ.geJ, JSQ.leJ]) rfl)
  refine ⟨?_, ?_, h.2.2.2 CursorTracker.initial rfl⟩
  · rw [h.1]
    rfl
  · rw [h.2.2.1]
    norm_num [CursorTracker.updatePosition, CursorTracker.initial,
      CursorTracker.isValidPosition, JSQ.isNumberType, JSQ.isFiniteJ,
      JSQ.geJ, JSQ.leJ]

/-- The `type` strings of the effect objects pushed into
`MagicalEffectsSystem.effects` (src/magical-effects.js). -/
inductive EffectType where
  | trailBubble
  | trailSparkle
  | trailBubbleLarge
  | bubbleClick
  | sparkleBubbleClick
  | expandingRingClick
  | glowClick
  | heartBubbleClick
  | bubble
  | sparkleBubble
  | expandingRing
  | ambient
  | burst
  | trail
  | glow
  | sparkle
deriving Repr, DecidableEq

/-- `effect.type.includes('-click')` (src/magical-effects.js line 152): true
exactly for the type strings that contain the substring `-click`. -/
def EffectType.isClick : EffectType → Bool
  | .bubbleClick => true
  | .sparkleBubbleClick => true
  | .expandingRingClick => true
  | .glowClick => true
  | .heartBubbleClick => true
  | _ => false

/-- An effect object of `MagicalEffectsSystem` (src/magical-effects.js).
Every numeric field is a JavaScript number; fields that a creator does not
put in its object literal default to `undef` (reading them in JavaScript
yields `undefined`). -/
structure MagEffect where
  x : JSQ := JSQ.undef
  y : JSQ := JSQ.undef
  vx : JSQ := JSQ.undef
  vy : JSQ := JSQ.undef
  size : JSQ := JSQ.undef
  color : String := ""
  opacity : JSQ := JSQ.undef
  life : JSQ := JSQ.undef
  maxLife : JSQ := JSQ.undef
  etype : EffectType
  rotation : JSQ := JSQ.undef
  rotationSpeed : JSQ := JSQ.undef
  targetX : JSQ := JSQ.undef
  targetY : JSQ := JSQ.undef
  initialSize : JSQ := JSQ.undef
  pulsePhase : JSQ := JSQ.undef
  floatSpeed : JSQ := JSQ.undef
  sparklePhase : JSQ := JSQ.undef
  twinkleSpeed : JSQ := JSQ.undef
  bouncePhase : JSQ := JSQ.undef
  maxSize : JSQ := JSQ.undef
  twinkle : JSQ := JSQ.undef
  pulseCount : JSQ := JSQ.undef
  floatPhase : JSQ := JSQ.undef
deriving Repr, DecidableEq

/-- The mutable state of the `MagicalEffectsSystem` class
(src/magical-effects.js lines 5-18); canvas objects are not modelled. -/
structure MagicalEffectsSystem where
  effects : List MagEffect
  reducedMotion : Bool
  mouseX : ℚ
  mouseY : ℚ
  lastMouseTime : ℚ
deriving Repr, DecidableEq

namespace MagicalEffectsSystem

/-- The `MagicalEffectsSystem` constructor state (src/magical-effects.js
lines 6-15); `reduced` is the initial `prefers-reduced-motion` match. -/
def initial (reduced : Bool) : MagicalEffectsSystem :=
  { effects := [], reducedMotion := reduced, mouseX := 0, mouseY := 0
    lastMouseTime := 0 }

/-- `arr[Math.floor(r * arr.length)]` for one `Math.random()` sample `r`. -/
def pickColor (colors : List String) (r : ℚ) : String :=
  colors.getD (Int.toNat ⌊r * (colors.length : ℚ)⌋) ""

/-- The `bubbleTrailColors` array (src/magical-effects.js lines 69-76). -/
def bubbleTrailColors : List String :=
  ["rgba(88, 28, 135, 0.9)", "rgba(30, 58, 138, 0.9)",
   "rgba(59, 130, 246, 0.9)", "rgba(67, 56, 202, 0.9)",
   "rgba(37, 99, 235, 0.9)", "rgba(147, 51, 234, 0.9)"]

/-- One trail bubble of the first loop of `createMagicalTrail`
(src/magical-effects.js lines 79-102); `k` is the index of the first of its
12 `Math.random()` samples, consumed in source order. -/
def trailBubbleAt (piQ : ℚ) (rand : ℕ → ℚ) (k : ℕ) (x y : ℚ) : MagEffect :=
  let bubbleSize := rand k * 8 + 4
  let offsetX := (rand (k + 1) - 0.5) * 25
  let offsetY := (rand (k + 2) - 0.5) * 25
  { x := .num (x + offsetX)
    y := .num (y + offsetY)
    vx := .num ((rand (k + 3) - 0.5) * 0.8)
    vy := .num ((rand (k + 4) - 0.5) * 0.8 - 0.8)
    size := .num bubbleSize
    color := pickColor bubbleTrailColors (rand (k + 5))
    opacity := .num 1
    life := .num 1
    maxLife := .num (rand (k + 6) * 60 + 40)
    etype := .trailBubble
    rotation := .num (rand (k + 7) * piQ * 2)
    rotationSpeed := .num ((rand (k + 8) - 0.5) * 0.05)
    initialSize := .num bubbleSize
    pulsePhase := .num (rand (k + 9) * piQ * 2)
    floatSpeed := .num (rand (k + 10) * 0.03 + 0.02)
    sparklePhase := .num (rand (k + 11) * piQ * 2) }

/-- One trail sparkle of the second loop of `createMagicalTrail`
(src/magical-effects.js lines 105-121); 10 `Math.random()` samples. -/
def trailSparkleAt (piQ : ℚ) (rand : ℕ → ℚ) (k : ℕ) (x y : ℚ) : MagEffect :=
  { x := .num (x + (rand k - 0.5) * 20)
    y := .num (y + (rand (k + 1) - 0.5) * 20)
    vx := .num ((rand (k + 2) - 0.5) * 0.5)
    vy := .num ((rand (k + 3) - 0.5) * 0.5 - 0.6)
    size := .num (rand (k + 4) * 4 + 2)
    color := pickColor bubbleTrailColors (rand (k + 5))
    opacity := .num 0.9
    life := .num 1
    maxLife := .num (rand (k + 6) * 40 + 30)
    etype := .trailSparkle
    rotation := .num (rand (k + 7) * piQ * 2)
    rotationSpeed := .num ((rand (k + 8) - 0.5) * 0.1)
    twinkleSpeed := .num (rand (k + 9) * 0.2 + 0.1) }

/-- The occasional large bubble of `createMagicalTrail`
(src/magical-effects.js lines 124-144); 10 further `Math.random()` samples
after the `Math.random() < 0.4` coin at index `k`. -/
def trailLargeBubbleAt (piQ : ℚ) (rand : ℕ → ℚ) (k : ℕ) (x y : ℚ) :
    MagEffect :=
  let largeBubbleSize := rand k * 12 + 10
  { x := .num (x + (rand (k + 1) - 0.5) * 15)
    y := .num (y + (rand (k + 2) - 0.5) * 15)
    vx := .num ((rand (k + 3) - 0.5) * 0.4)
    vy := .num ((rand (k + 4) - 0.5) * 0.4 - 1)
    size := .num largeBubbleSize
    color := pickColor bubbleTrailColors (rand (k + 5))
    opacity := .num 0.9
    life := .num 1
    maxLife := .num (rand (k + 6) * 80 + 60)
    etype := .trailBubbleLarge
    rotation := .num 0
    rotationSpeed := .num ((rand (k + 7) - 0.5) * 0.03)
    initialSize := .num largeBubbleSize
    pulsePhase := .num (rand (k + 8) * piQ * 2)
    floatSpeed := .num (rand (k + 9) * 0.02 + 0.01)
    bouncePhase := .num (rand (k + 10) * piQ * 2) }

/-- `MagicalEffectsSystem.createMagicalTrail(x, y)` (src/magical-effects.js
lines 60-145).  `now` models `Date.now()`; `k` is the index of the first
`Math.random()` sample used by this call. -/
def createMagicalTrail (piQ : ℚ) (rand : ℕ → ℚ) (k : ℕ) (now : ℚ) (x y : ℚ)
    (s : MagicalEffectsSystem) : MagicalEffectsSystem :=
  if s.reducedMotion then s
  else if now - s.lastMouseTime < 40 then s
  else
    let bubbles := (List.range 4).map fun i =>
      trailBubbleAt piQ rand (k + 12 * i) x y
    let sparkles := (List.range 2).map fun i =>
      trailSparkleAt piQ rand (k + 48 + 10 * i) x y
    let large :=
      if rand (k + 68) < 0.4 then [trailLargeBubbleAt piQ rand (k + 69) x y]
      else []
    { s with
        lastMouseTime := now
        effects := s.effects ++ bubbles ++ sparkles ++ large }

/-- The `bubbleColors` array of `createClickEffect` (src/magical-effects.js
lines 156-163); identical strings to `bubbleTrailColors`. -/
def bubbleColors : List String := bubbleTrailColors

/-- Ring bubble `i` of `createClickEffect` (src/magical-effects.js lines
166-190); each iteration consumes 4 `Math.random()` samples, in source
order distance, size, rotation speed, pulse phase. -/
def clickRingBubble (piQ : ℚ) (cosQ sinQ : ℚ → ℚ) (rand : ℕ → ℚ) (k : ℕ)
    (x y : ℚ) (i : ℕ) : MagEffect :=
  let angle := ((i : ℚ) / 6) * piQ * 2
  let distance := 35 + rand (k + 4 * i) * 15
  let bubbleSize := 10 + rand (k + 4 * i + 1) * 6
  { x := .num x
    y := .num y
    vx := .num (cosQ angle * 2.5)
    vy := .num (sinQ angle * 2.5)
    targetX := .num (x + cosQ angle * distance)
    targetY := .num (y + sinQ angle * distance)
    size := .num bubbleSize
    color := bubbleColors.getD (i % bubbleColors.length) ""
    opacity := .num 1
    life := .num 1
    maxLife := .num 30
    etype := .bubbleClick
    rotation := .num angle
    rotationSpeed := .num ((rand (k + 4 * i + 2) - 0.5) * 0.08)
    initialSize := .num bubbleSize
    pulsePhase := .num (rand (k + 4 * i + 3) * piQ * 2)
    bouncePhase := .num 0 }

/-- The expanding-ring effect of `createClickEffect`
(src/magical-effects.js lines 193-207). -/
def clickExpandingRing (x y : ℚ) : MagEffect :=
  { x := .num x
    y := .num y
    vx := .num 0
    vy := .num 0
    size := .num 5
    color := "rgba(59, 130, 246, 0.7)"
    opacity := .num 1
    life := .num 1
    maxLife := .num 25
    etype := .expandingRingClick
    rotation := .num 0
    rotationSpeed := .num 0.1
    maxSize := .num 70 }

/-- The central-glow effect of `createClickEffect`
(src/magical-effects.js lines 210-224). -/
def clickGlow (x y : ℚ) : MagEffect :=
  { x := .num x
    y := .num y
    vx := .num 0
    vy := .num 0
    size := .num 12
    color := "rgba(147, 51, 234, 0.5)"
    opacity := .num 1
    life := .num 1
    maxLife := .num 20
    etype := .glowClick
    rotation := .num 0
    rotationSpeed := .num 0
    pulsePhase := .num 0 }

/-- All effects pushed by one `createClickEffect` call, in push order: the
six ring bubbles, the expanding ring, the central glow. -/
def clickNewEffects (piQ : ℚ) (cosQ sinQ : ℚ → ℚ) (rand : ℕ → ℚ) (k : ℕ)
    (x y : ℚ) : List MagEffect :=
  (List.range 6).map (clickRingBubble piQ cosQ sinQ rand k x y) ++
    [clickExpandingRing x y, clickGlow x y]

/-- `MagicalEffectsSystem.createClickEffect(x, y)` (src/magical-effects.js
lines 147-225): under reduced motion it does nothing; otherwise it removes
every existing `-click` effect and pushes the eight new click effects. -/
def createClickEffect (piQ : ℚ) (cosQ sinQ : ℚ → ℚ) (rand : ℕ → ℚ) (k : ℕ)
    (x y : ℚ) (s : MagicalEffectsSystem) : MagicalEffectsSystem :=
  if s.reducedMotion then s
  else
    { s with
        effects :=
          s.effects.filter (fun e => !e.etype.isClick) ++
            clickNewEffects piQ cosQ sinQ rand k x y }

/-- One hover sparkle of `createHoverEffect` (src/magical-effects.js lines
235-253); one `Math.random()` sample per iteration (the size). -/
def hoverSparkleAt (piQ : ℚ) (cosQ sinQ : ℚ → ℚ) (rand : ℕ → ℚ) (k : ℕ)
    (centerX centerY radius : ℚ) (i : ℕ) : MagEffect :=
  let angle := ((i : ℚ) / 6) * piQ * 2
  { x := .num (centerX + cosQ angle * radius)
    y := .num (centerY + sinQ angle * radius)
    vx := .num (cosQ angle * 0.5)
    vy := .num (sinQ angle * 0.5)
    size := .num (rand (k + i) * 4 + 2)
    color := "rgba(255, 255, 255, 0.7)"
    opacity := .num 0.8
    life := .num 1
    maxLife := .num 30
    etype := .sparkle
    rotation := .num angle
    rotationSpeed := .num 0.1 }

/-- `MagicalEffectsSystem.createHoverEffect(element)` (src/magical-effects.js
lines 227-254); the element's bounding rectangle is passed as
`rectL, rectT, rectW, rectH`. -/
def createHoverEffect (piQ : ℚ) (cosQ sinQ : ℚ → ℚ) (rand : ℕ → ℚ) (k : ℕ)
    (rectL rectT rectW rectH : ℚ) (s : MagicalEffectsSystem) :
    MagicalEffectsSystem :=
  if s.reducedMotion then s
  else
    let centerX := rectL + rectW / 2
    let centerY := rectT + rectH / 2
    let radius := max rectW rectH / 2 + 20
    { s with
        effects := s.effects ++
          (List.range 6).map
            (hoverSparkleAt piQ cosQ sinQ rand k centerX centerY radius) }

/-- `MagicalEffectsSystem.createAmbientSparkle()` (src/magical-effects.js
lines 274-296); 10 `Math.random()` samples, consumed in source order. -/
def createAmbientSparkle (piQ : ℚ) (rand : ℕ → ℚ) (k : ℕ)
    (innerW innerH : ℚ) (s : MagicalEffectsSystem) : MagicalEffectsSystem :=
  if s.reducedMotion then s
  else
    { s with
        effects := s.effects ++
          [{ x := .num (rand k * innerW)
             y := .num (rand (k + 1) * innerH)
             vx := .num ((rand (k + 2) - 0.5) * 0.3)
             vy := .num ((rand (k + 3) - 0.5) * 0.3)
             size := .num (rand (k + 4) * 3 + 1)
             color := "rgba(255, 255, 255, 0.4)"
             opacity := .num 0.6
             life := .num 1
             maxLife := .num (rand (k + 5) * 120 + 60)
             etype := .ambient
             rotation := .num (rand (k + 6) * piQ * 2)
             rotationSpeed := .num ((rand (k + 7) - 0.5) * 0.02)
             twinkle := .num (rand (k + 8) * piQ * 2)
             twinkleSpeed := .num (rand (k + 9) * 0.03 + 0.01) }] }

/-- The periodic ambient timer callback of `startAmbientSparkles`
(src/magical-effects.js lines 260-264): only when fewer than 50 effects are
alive does it create an ambient sparkle. -/
def ambientTick (piQ : ℚ) (rand : ℕ → ℚ) (k : ℕ) (innerW innerH : ℚ)
    (s : MagicalEffectsSystem) : MagicalEffectsSystem :=
  if s.effects.length < 50 then createAmbientSparkle piQ rand k innerW innerH s
  else s

/-- The `prefers-reduced-motion` change listener of
`MagicalEffectsSystem.bindEvents` (src/magical-effects.js lines 789-795):
record the new flag and, when it is on, clear all effects. -/
def mediaChange (m : Bool) (s : MagicalEffectsSystem) :
    MagicalEffectsSystem :=
  let s1 := { s with reducedMotion := m }
  if m then { s1 with effects := [] } else s1

end MagicalEffectsSystem

namespace MagicalEffectsSystem

/-- The unconditional first lines of `MagicalEffectsSystem.updateEffect`
(src/magical-effects.js lines 313-322): advance position and rotation,
decrement `life` by `1/maxLife`, and copy `life` into `opacity`. -/
def updateEffectCore (e : MagEffect) : MagEffect :=
  let e1 := { e with
    x := e.x.add e.vx
    y := e.y.add e.vy
    rotation := e.rotation.add e.rotationSpeed }
  let e2 := { e1 with life := e1.life.sub ((JSQ.num 1).div e1.maxLife) }
  { e2 with opacity := e2.life }

/-- The type-specific branch of `MagicalEffectsSystem.updateEffect`
(src/magical-effects.js lines 324-468), applied after `updateEffectCore`.
`sinQ`/`cosQ` model `Math.sin`/`Math.cos` on finite doubles and `now`
models `Date.now()`. -/
def updateEffectBranch (sinQ cosQ : ℚ → ℚ) (now : ℚ) (e : MagEffect) :
    MagEffect :=
  match e.etype with
  | .bubbleClick =>
      let bouncePhase := e.bouncePhase.add (.num 0.15)
      let bounce := ((JSQ.sinJ sinQ bouncePhase).mul (.num 0.3)).mul e.life
      let x := e.x.add ((e.targetX.sub e.x).mul (.num 0.08))
      let y := (e.y.add ((e.targetY.sub e.y).mul (.num 0.08))).add bounce
      let pulsePhase := e.pulsePhase.add (.num 0.2)
      let pulse := ((JSQ.sinJ sinQ pulsePhase).mul (.num 0.3)).add (.num 1)
      let size := (e.initialSize.mul pulse).mul
        ((JSQ.num 0.5).add (e.life.mul (.num 0.5)))
      { e with
          bouncePhase := bouncePhase, x := x, y := y
          pulsePhase := pulsePhase, size := size
          opacity := e.life.mul (.num 0.95) }
  | .sparkleBubbleClick =>
      let x := e.x.add ((e.targetX.sub e.x).mul (.num 0.06))
      let y := e.y.add ((e.targetY.sub e.y).mul (.num 0.06))
      let pulsePhase := e.pulsePhase.add e.twinkleSpeed
      let twinkle := ((JSQ.sinJ sinQ pulsePhase).mul (.num 0.4)).add (.num 0.6)
      let opacity := (e.life.mul twinkle).mul (.num 0.8)
      let size := e.initialSize.mul
        ((JSQ.num 0.8).add
          ((JSQ.sinJ sinQ (pulsePhase.mul (.num 0.5))).mul (.num 0.2)))
      { e with x := x, y := y, pulsePhase := pulsePhase
               opacity := opacity, size := size }
  | .expandingRingClick =>
      let progress := (JSQ.num 1).sub e.life
      let size := (JSQ.num 8).add ((e.maxSize.sub (.num 8)).mul progress)
      let pulseCount := e.pulseCount.add (.num 0.3)
      let pulseWave := ((JSQ.sinJ sinQ pulseCount).mul (.num 0.2)).add (.num 0.8)
      let opacity := (e.life.mul (.num 0.7)).mul pulseWave
      { e with size := size, pulseCount := pulseCount, opacity := opacity
               rotation := e.rotation.add e.rotationSpeed }
  | .glowClick =>
      let pulsePhase := e.pulsePhase.add (.num 0.15)
      let pulse := ((JSQ.sinJ sinQ pulsePhase).mul (.num 0.4)).add (.num 0.6)
      { e with pulsePhase := pulsePhase
               size := (JSQ.num 15).add (pulse.mul (.num 10))
               opacity := (e.life.mul (.num 0.4)).mul pulse }
  | .heartBubbleClick =>
      let floatPhase := e.floatPhase.add (.num 0.1)
      let x1 := e.x.add ((e.targetX.sub e.x).mul (.num 0.04))
      let y1 := e.y.add ((e.targetY.sub e.y).mul (.num 0.04))
      let x2 := x1.add ((JSQ.sinJ sinQ floatPhase).mul (.num 0.5))
      let y2 := y1.add ((JSQ.cosJ cosQ (floatPhase.mul (.num 0.7))).mul (.num 0.3))
      { e with floatPhase := floatPhase, x := x2, y := y2
               opacity := e.life.mul (.num 0.7) }
  | .bubble =>
      let vy := (e.vy.add (.num 0.02)).mul (.num 0.98)
      let vx := e.vx.mul (.num 0.98)
      let pulsePhase := e.pulsePhase.add (.num 0.1)
      let pulse := ((JSQ.sinJ sinQ pulsePhase).mul (.num 0.2)).add (.num 1)
      { e with vx := vx, vy := vy, pulsePhase := pulsePhase
               size := e.initialSize.mul pulse
               x := e.x.add ((JSQ.sinJ sinQ (pulsePhase.mul (.num 0.5))).mul (.num 0.5))
               opacity := e.life.mul (.num 0.9) }
  | .trailBubble =>
      let vy := (e.vy.sub (.num 0.015)).mul (.num 0.98)
      let vx := e.vx.mul (.num 0.98)
      let pulsePhase := e.pulsePhase.add e.floatSpeed
      let pulse := ((JSQ.sinJ sinQ pulsePhase).mul (.num 0.25)).add (.num 1)
      let x1 := e.x.add ((JSQ.sinJ sinQ (pulsePhase.mul (.num 0.4))).mul (.num 0.6))
      let y1 := e.y.add ((JSQ.cosJ cosQ (pulsePhase.mul (.num 0.3))).mul (.num 0.4))
      let e1 := { e with vx := vx, vy := vy, pulsePhase := pulsePhase
                         size := e.initialSize.mul pulse, x := x1, y := y1 }
      let sp : JSQ × JSQ :=
        if e1.sparklePhase ≠ JSQ.undef then
          let sparklePhase := e1.sparklePhase.add (.num 0.1)
          let sparkle := ((JSQ.sinJ sinQ sparklePhase).mul (.num 0.3)).add (.num 0.7)
          (sparklePhase, e1.life.mul sparkle)
        else (e1.sparklePhase, e1.life.mul (.num 0.9))
      { e1 with sparklePhase := sp.1, opacity := sp.2 }
  | .trailBubbleLarge =>
      let vy := (e.vy.sub (.num 0.015)).mul (.num 0.98)
      let vx := e.vx.mul (.num 0.98)
      let pulsePhase := e.pulsePhase.add e.floatSpeed
      let pulse := ((JSQ.sinJ sinQ pulsePhase).mul (.num 0.25)).add (.num 1)
      let x1 := e.x.add ((JSQ.sinJ sinQ (pulsePhase.mul (.num 0.4))).mul (.num 0.6))
      let y1 := e.y.add ((JSQ.cosJ cosQ (pulsePhase.mul (.num 0.3))).mul (.num 0.4))
      let e1 := { e with vx := vx, vy := vy, pulsePhase := pulsePhase
                         size := e.initialSize.mul pulse, x := x1, y := y1 }
      let sp : JSQ × JSQ :=
        if e1.sparklePhase ≠ JSQ.undef then
          let sparklePhase := e1.sparklePhase.add (.num 0.1)
          let sparkle := ((JSQ.sinJ sinQ sparklePhase).mul (.num 0.3)).add (.num 0.7)
          (sparklePhase, e1.life.mul sparkle)
        else (e1.sparklePhase, e1.life.mul (.num 0.9))
      let e2 := { e1 with sparklePhase := sp.1, opacity := sp.2 }
      let bp : JSQ × JSQ :=
        if e2.bouncePhase ≠ JSQ.undef then
          let bouncePhase := e2.bouncePhase.add (.num 0.08)
          let bounce := (JSQ.sinJ sinQ bouncePhase).mul (.num 0.8)
          (bouncePhase, e2.x.add bounce)
        else (e2.bouncePhase, e2.x)
      { e2 with bouncePhase := bp.1, x := bp.2 }
  | .trailSparkle =>
      let vy := (e.vy.sub (.num 0.01)).mul (.num 0.99)
      let vx := e.vx.mul (.num 0.99)
      let twinkle := ((JSQ.sinJ sinQ ((JSQ.num now).mul e.twinkleSpeed)).mul
        (.num 0.5)).add (.num 0.5)
      { e with vx := vx, vy := vy
               opacity := e.life.mul twinkle
               rotation := e.rotation.add e.rotationSpeed }
  | .sparkleBubble =>
      let vy := (e.vy.add (.num 0.03)).mul (.num 0.97)
      let vx := e.vx.mul (.num 0.97)
      let opacity := (((JSQ.sinJ sinQ
          ((JSQ.num (now * 0.01)).add e.rotation)).add (.num 1)).mul
        (.num 0.3)).add (.num 0.2)
      { e with vx := vx, vy := vy, opacity := opacity }
  | .expandingRing =>
      let progress := (JSQ.num 1).sub e.life
      { e with size := (JSQ.num 5).add ((e.maxSize.sub (.num 5)).mul progress)
               opacity := e.life.mul (.num 0.6) }
  | .ambient =>
      let twinkle := e.twinkle.add e.twinkleSpeed
      let opacity := (((JSQ.sinJ sinQ twinkle).add (.num 1)).mul (.num 0.2)).add
        (.num 0.1)
      let time := now * 0.001
      let y1 := e.y.add ((JSQ.sinJ sinQ ((JSQ.num time).add
        (e.x.mul (.num 0.01)))).mul (.num 0.1))
      let x1 := e.x.add ((JSQ.cosJ cosQ ((JSQ.num time).add
        (y1.mul (.num 0.01)))).mul (.num 0.05))
      { e with twinkle := twinkle, opacity := opacity, y := y1, x := x1 }
  | .burst =>
      { e with vy := (e.vy.add (.num 0.05)).mul (.num 0.99)
               vx := e.vx.mul (.num 0.99) }
  | .trail =>
      { e with vy := (e.vy.add (.num 0.05)).mul (.num 0.99)
               vx := e.vx.mul (.num 0.99) }
  | .glow =>
      { e with size := e.size.mul (.num 1.03)
               opacity := e.life.mul (.num 0.3) }
  | .sparkle => e

/-- `MagicalEffectsSystem.updateEffect(effect)` (src/magical-effects.js
lines 312-471): the mutated effect together with the returned aliveness
flag `effect.life > 0`. -/
def updateEffect (sinQ cosQ : ℚ → ℚ) (now : ℚ) (e : MagEffect) :
    MagEffect × Bool :=
  let e1 := updateEffectBranch sinQ cosQ now (updateEffectCore e)
  (e1, e1.life.gtJ (.num 0))

/-- One frame of `MagicalEffectsSystem.animate` (src/magical-effects.js
lines 744-757): every effect is updated; the survivors (those whose update
returned `true`) form both the new effects list and the list handed to
`drawEffect`.  Returns the new state together with the drawn effects. -/
def animateFrame (sinQ cosQ : ℚ → ℚ) (now : ℚ) (s : MagicalEffectsSystem) :
    MagicalEffectsSystem × List MagEffect :=
  let alive := ((s.effects.map (updateEffect sinQ cosQ now)).filter
    (fun p => p.2)).map (fun p => p.1)
  ({ s with effects := alive }, alive)

end MagicalEffectsSystem

/-- The `type` of an `EffectManager` effect object: `'ripple'` or
`'sparkle'` (src/magical-effects.js lines 957-975 and 1009-1035). -/
inductive EMType where
  | ripple
  | sparkle
deriving Repr, DecidableEq

/-- An effect object held in `EffectManager.activeEffects`
(src/magical-effects.js).  Numeric fields a creator does not set default to
`undef`. -/
structure EMEffect where
  id : String
  etype : EMType
  x : JSQ
  y : JSQ
  targetX : JSQ := JSQ.undef
  targetY : JSQ := JSQ.undef
  startTime : ℚ
  duration : ℚ
  maxRadius : JSQ := JSQ.undef
  size : JSQ := JSQ.undef
  color : String
  lineWidth : JSQ := JSQ.undef
  isActive : Bool
  currentRadius : JSQ := JSQ.undef
  currentX : JSQ := JSQ.undef
  currentY : JSQ := JSQ.undef
  opacity : JSQ
  rotation : JSQ := JSQ.undef
  rotationSpeed : JSQ := JSQ.undef
  vx : JSQ := JSQ.undef
  vy : JSQ := JSQ.undef
  lastUpdateTime : ℚ
deriving Repr, DecidableEq

/-- The options object accepted by the `EffectManager` creators
(src/magical-effects.js); absent entries are `undefined`. -/
structure EMOptions where
  duration : JSQ := JSQ.undef
  maxRadius : JSQ := JSQ.undef
  color : Option String := none
  lineWidth : JSQ := JSQ.undef
  count : JSQ := JSQ.undef
  distance : JSQ := JSQ.undef
  size : JSQ := JSQ.undef
  rippleDuration : JSQ := JSQ.undef
  rippleRadius : JSQ := JSQ.undef
  rippleColor : Option String := none
  sparkleCount : JSQ := JSQ.undef
  sparkleDuration : JSQ := JSQ.undef
  sparkleDistance : JSQ := JSQ.undef
  sparkleColor : Option String := none
deriving Repr

/-- The mutable state of the `EffectManager` class (src/magical-effects.js
lines 839-866); canvas objects and the animation/cleanup timers are not
modelled. -/
structure EffectManager where
  cursorTracker : CursorTracker
  activeEffects : List EMEffect
  effectIdCounter : ℕ
  maxEffects : ℕ
  reducedMotion : Bool
deriving Repr, DecidableEq

namespace EffectManager

/-- The `EffectManager` constructor state (src/magical-effects.js lines
840-862): empty effects list, id counter 0, `maxEffects = 50`. -/
def initial (tracker : CursorTracker) (reduced : Bool) : EffectManager :=
  { cursorTracker := tracker, activeEffects := [], effectIdCounter := 0
    maxEffects := 50, reducedMotion := reduced }

/-- `EffectManager.isValidPosition(x, y)` (src/magical-effects.js lines
1350-1361): the same predicate as the tracker's, duplicated in the
source. -/
def isValidPosition (innerW innerH : ℚ) (x y : JSQ) : Bool :=
  x.isNumberType && y.isNumberType &&
  x.isFiniteJ && y.isFiniteJ &&
  x.geJ (.num 0) && y.geJ (.num 0) &&
  x.leJ (.num (innerW * 2)) && y.leJ (.num (innerH * 2))

/-- `EffectManager.generateEffectId()` (src/magical-effects.js lines
1328-1330): pre-increments the counter and builds the id string. -/
def generateEffectId (now : ℚ) (s : EffectManager) : String × EffectManager :=
  let c := s.effectIdCounter + 1
  ("effect_" ++ toString c ++ "_" ++ toString now,
    { s with effectIdCounter := c })

/-- `EffectManager.addEffect(effect)` (src/magical-effects.js lines
1076-1086): when the list is at (or beyond) `maxEffects`, `shift()` removes
the oldest entry before the new effect is pushed. -/
def addEffect (e : EMEffect) (s : EffectManager) : EffectManager :=
  let kept :=
    if s.activeEffects.length ≥ s.maxEffects then s.activeEffects.drop 1
    else s.activeEffects
  { s with activeEffects := kept ++ [e] }

/-- The color array of `EffectManager.getRandomSparkleColor`
(src/magical-effects.js lines 1336-1343). -/
def sparkleColors : List String :=
  ["rgba(139, 92, 246, 0.8)", "rgba(168, 85, 247, 0.8)",
   "rgba(59, 130, 246, 0.8)", "rgba(147, 51, 234, 0.8)",
   "rgba(255, 255, 255, 0.8)", "rgba(192, 132, 252, 0.8)"]

/-- `EffectManager.createRippleEffect(x, y, options)`
(src/magical-effects.js lines 942-979).  `now` models `performance.now()`;
a missing coordinate (`undef`) falls back to the tracker position.  Returns
the effect id (or `none` for the `null` early returns) with the new
state. -/
def createRippleEffect (now innerW innerH : ℚ) (x y : JSQ)
    (opts : EMOptions) (s : EffectManager) :
    Option String × EffectManager :=
  if s.reducedMotion then (none, s)
  else
    let position := (s.cursorTracker.getCurrentPosition innerW innerH).1
    let effectX := if x ≠ JSQ.undef then x else .num position.x
    let effectY := if y ≠ JSQ.undef then y else .num position.y
    if !isValidPosition innerW innerH effectX effectY then (none, s)
    else
      let idAndS := generateEffectId now s
      let e : EMEffect :=
        { id := idAndS.1
          etype := .ripple
          x := effectX
          y := effectY
          startTime := now
          duration := opts.duration.orDefault 800
          maxRadius := .num (opts.maxRadius.orDefault 150)
          color := opts.color.getD "rgba(139, 92, 246, 0.6)"
          lineWidth := .num (opts.lineWidth.orDefault 3)
          isActive := true
          currentRadius := .num 0
          opacity := .num 1
          lastUpdateTime := now }
      (some idAndS.1, addEffect e idAndS.2)

/-- Number of iterations of a JavaScript `for (let i = 0; i < n; i++)` loop
whose bound `n` is a rational. -/
def loopCount (q : ℚ) : ℕ := if q ≤ 0 then 0 else ⌈q⌉₊

/-- One sparkle of `createSparkleEffect` (src/magical-effects.js lines
1003-1039), for loop index `i` out of `count`, starting at `Math.random()`
sample index `k`.  The per-iteration samples are consumed in source order:
distance (only when `options.distance` is falsy), size (only when
`options.size` is falsy), color (only when `options.color` is absent),
rotation speed.  Returns the effect together with the next sample index. -/
def sparkleAt (piQ : ℚ) (cosQ sinQ : ℚ → ℚ) (rand : ℕ → ℚ) (k : ℕ)
    (now : ℚ) (effectX effectY : JSQ) (count : ℚ) (opts : EMOptions)
    (eid : String) (i : ℕ) : EMEffect × ℕ :=
  let angle := ((i : ℚ) / count) * piQ * 2
  let dk : ℚ × ℕ :=
    match opts.distance with
    | .num q => if q = 0 then (30 + rand k * 20, k + 1) else (q, k)
    | _ => (30 + rand k * 20, k + 1)
  let sk : ℚ × ℕ :=
    match opts.size with
    | .num q => if q = 0 then (4 + rand dk.2 * 4, dk.2 + 1) else (q, dk.2)
    | _ => (4 + rand dk.2 * 4, dk.2 + 1)
  let ck : String × ℕ :=
    match opts.color with
    | some c => (c, sk.2)
    | none =>
        (MagicalEffectsSystem.pickColor sparkleColors (rand sk.2), sk.2 + 1)
  let rotationSpeed := (rand ck.2 - 0.5) * 0.1
  ({ id := eid
     etype := .sparkle
     x := effectX
     y := effectY
     targetX := effectX.add (.num (cosQ angle * dk.1))
     targetY := effectY.add (.num (sinQ angle * dk.1))
     startTime := now
     duration := opts.duration.orDefault 600
     size := .num sk.1
     color := ck.1
     isActive := true
     currentX := effectX
     currentY := effectY
     opacity := .num 1
     rotation := .num angle
     rotationSpeed := .num rotationSpeed
     vx := .num (cosQ angle * 2)
     vy := .num (sinQ angle * 2)
     lastUpdateTime := now } , ck.2 + 1)

/-- The sparkle-burst loop of `createSparkleEffect`: `steps` remaining
iterations, current loop index `i`, current `Math.random()` index `k`. -/
def sparkleLoop (piQ : ℚ) (cosQ sinQ : ℚ → ℚ) (rand : ℕ → ℚ) (now : ℚ)
    (effectX effectY : JSQ) (count : ℚ) (opts : EMOptions) :
    ℕ → ℕ → ℕ → List String → EffectManager → List String × EffectManager
  | 0, _, _, ids, s => (ids, s)
  | steps + 1, i, k, ids, s =>
      let idAndS := generateEffectId now s
      let ek := sparkleAt piQ cosQ sinQ rand k now effectX effectY count opts
        idAndS.1 i
      sparkleLoop piQ cosQ sinQ rand now effectX effectY count opts
        steps (i + 1) ek.2 (ids ++ [idAndS.1]) (addEffect ek.1 idAndS.2)

/-- `EffectManager.createSparkleEffect(x, y, options)`
(src/magical-effects.js lines 985-1042). -/
def createSparkleEffect (piQ : ℚ) (cosQ sinQ : ℚ → ℚ) (rand : ℕ → ℚ)
    (k : ℕ) (now innerW innerH : ℚ) (x y : JSQ) (opts : EMOptions)
    (s : EffectManager) : List String × EffectManager :=
  if s.reducedMotion then ([], s)
  else
    let position := (s.cursorTracker.getCurrentPosition innerW innerH).1
    let effectX := if x ≠ JSQ.undef then x else .num position.x
    let effectY := if y ≠ JSQ.undef then y else .num position.y
    if !isValidPosition innerW innerH effectX effectY then ([], s)
    else
      let sparkleCount := opts.count.orDefault 6
      sparkleLoop piQ cosQ sinQ rand now effectX effectY sparkleCount opts
        (loopCount sparkleCount) 0 k [] s

/-- `EffectManager.createClickEffect(x, y, options)`
(src/magical-effects.js lines 1048-1070): a ripple and a sparkle burst. -/
def createClickEffect (piQ : ℚ) (cosQ sinQ : ℚ → ℚ) (rand : ℕ → ℚ)
    (k : ℕ) (now innerW innerH : ℚ) (x y : JSQ) (opts : EMOptions)
    (s : EffectManager) : (Option String × List String) × EffectManager :=
  if s.reducedMotion then ((none, []), s)
  else
    let ripple := createRippleEffect now innerW innerH x y
      { duration := .num (opts.rippleDuration.orDefault 800)
        maxRadius := .num (opts.rippleRadius.orDefault 150)
        color := some (opts.rippleColor.getD "rgba(139, 92, 246, 0.6)") } s
    let sparkles := createSparkleEffect piQ cosQ sinQ rand k now innerW innerH
      x y
      { count := .num (opts.sparkleCount.orDefault 6)
        duration := .num (opts.sparkleDuration.orDefault 600)
        distance := .num (opts.sparkleDistance.orDefault 40)
        color := opts.sparkleColor } ripple.2
    ((ripple.1, sparkles.1), sparkles.2)

/-- The `prefers-reduced-motion` change listener of
`EffectManager.bindEvents` (src/magical-effects.js lines 929-935): record
the flag and clear all effects when it turns on (`clearAllEffects`). -/
def mediaChange (m : Bool) (s : EffectManager) : EffectManager :=
  let s1 := { s with reducedMotion := m }
  if m then { s1 with activeEffects := [] } else s1

end EffectManager

/-- The `type` of a `ParticleSystem` particle (src/particle-system.js
lines 52-110): regular, glowing, or floating-sparkle. -/
inductive PType where
  | regular
  | glow
  | sparkle
deriving Repr, DecidableEq

/-- A particle of `ParticleSystem` (src/particle-system.js lines 52-110).
`glowIntensity`, `twinkle` and `twinkleSpeed` exist only on the glow and
sparkle variants and default to `undef`. -/
structure PParticle where
  x : ℚ
  y : ℚ
  vx : ℚ
  vy : ℚ
  size : ℚ
  color : String
  opacity : ℚ
  originalVx : ℚ
  originalVy : ℚ
  ptype : PType
  life : ℚ
  maxLife : ℚ
  glowIntensity : JSQ := JSQ.undef
  twinkle : JSQ := JSQ.undef
  twinkleSpeed : JSQ := JSQ.undef
deriving Repr, DecidableEq

/-- The mutable state of the `ParticleSystem` class (src/particle-system.js
lines 2-31); the canvas is kept as its dimensions. -/
structure ParticleSystem where
  particles : List PParticle
  particleCount : ℚ
  colors : List String
  isHeroHovered : Bool
  reducedMotion : Bool
  canvasW : ℚ
  canvasH : ℚ
deriving Repr, DecidableEq

namespace ParticleSystem

/-- `ParticleSystem.createParticle()` (src/particle-system.js lines
52-110): one `Math.random()` sample picks the variant, then the field
samples are consumed in the order of the object literal.  Returns the
particle together with the next sample index. -/
def createParticle (rand : ℕ → ℚ) (piQ w h : ℚ) (colors : List String)
    (k : ℕ) : PParticle × ℕ :=
  let t := rand k
  if t < 0.7 then
    ({ x := rand (k + 1) * w
       y := rand (k + 2) * h
       vx := (rand (k + 3) - 0.5) * 0.5
       vy := (rand (k + 4) - 0.5) * 0.5
       size := rand (k + 5) * 3 + 1
       color := MagicalEffectsSystem.pickColor colors (rand (k + 6))
       opacity := rand (k + 7) * 0.5 + 0.2
       originalVx := (rand (k + 8) - 0.5) * 0.5
       originalVy := (rand (k + 9) - 0.5) * 0.5
       ptype := .regular
       life := 1
       maxLife := 1 }, k + 10)
  else if t < 0.85 then
    ({ x := rand (k + 1) * w
       y := rand (k + 2) * h
       vx := (rand (k + 3) - 0.5) * 0.3
       vy := (rand (k + 4) - 0.5) * 0.3
       size := rand (k + 5) * 5 + 2
       color := MagicalEffectsSystem.pickColor colors (rand (k + 6))
       opacity := rand (k + 7) * 0.8 + 0.4
       originalVx := (rand (k + 8) - 0.5) * 0.3
       originalVy := (rand (k + 9) - 0.5) * 0.3
       ptype := .glow
       life := 1
       maxLife := 1
       glowIntensity := .num (rand (k + 10) * 0.5 + 0.5) }, k + 11)
  else
    ({ x := rand (k + 1) * w
       y := rand (k + 2) * h
       vx := (rand (k + 3) - 0.5) * 0.2
       vy := (rand (k + 4) - 0.5) * 0.2
       size := rand (k + 5) * 2 + 0.5
       color := "#ffd700"
       opacity := rand (k + 6) * 0.6 + 0.3
       originalVx := (rand (k + 7) - 0.5) * 0.2
       originalVy := (rand (k + 8) - 0.5) * 0.2
       ptype := .sparkle
       life := 1
       maxLife := 1
       twinkle := .num (rand (k + 9) * piQ * 2)
       twinkleSpeed := .num (rand (k + 10) * 0.05 + 0.02) }, k + 11)

/-- The loop of `ParticleSystem.createParticles` (src/particle-system.js
lines 45-50), creating `n` fresh particles from sample index `k`. -/
def createParticlesList (rand : ℕ → ℚ) (piQ w h : ℚ) (colors : List String) :
    ℕ → ℕ → List PParticle × ℕ
  | 0, k => ([], k)
  | n + 1, k =>
      let pk := createParticle rand piQ w h colors k
      let rest := createParticlesList rand piQ w h colors n pk.2
      (pk.1 :: rest.1, rest.2)

/-- `ParticleSystem.createParticles()` (src/particle-system.js lines
45-50): replaces `particles` with `particleCount` fresh particles. -/
def createParticles (rand : ℕ → ℚ) (piQ : ℚ) (k : ℕ) (s : ParticleSystem) :
    ParticleSystem × ℕ :=
  let lk := createParticlesList rand piQ s.canvasW s.canvasH s.colors
    (EffectManager.loopCount s.particleCount) k
  ({ s with particles := lk.1 }, lk.2)

/-- `ParticleSystem.updateParticle(particle)` (src/particle-system.js lines
112-150).  `scrollY` models `window.scrollY`, `now` models `Date.now()`,
`hov` is `this.isHeroHovered`, `w`/`h` are the canvas dimensions.  The
`opacity` field stays a rational; the fallback arm of the sparkle branch is
unreachable, since every sparkle particle built by `createParticle` carries
a finite `twinkle`. -/
def updateParticle (scrollY now : ℚ) (sinQ cosQ : ℚ → ℚ) (hov : Bool)
    (w h : ℚ) (p : PParticle) : PParticle :=
  let parallaxFactor : ℚ := 0.3
  let p := { p with
    x := p.x + p.vx + scrollY * parallaxFactor * 0.001
    y := p.y + p.vy - scrollY * parallaxFactor * 0.002 }
  let hv : ℚ × ℚ × ℚ :=
    if hov then (p.originalVx * 2, p.originalVy * 2, min (p.opacity * 1.5) 1)
    else (p.originalVx, p.originalVy, max (p.opacity / 1.5) 0.2)
  let p := { p with vx := hv.1, vy := hv.2.1, opacity := hv.2.2 }
  let p :=
    match p.ptype with
    | .sparkle =>
        let twinkle := p.twinkle.add p.twinkleSpeed
        { p with
            twinkle := twinkle
            opacity :=
              match (JSQ.sinJ sinQ twinkle).add (.num 1) with
              | .num q => q * 0.3 + 0.2
              | _ => p.opacity }
    | .glow =>
        { p with
            glowIntensity := .num (sinQ (now * 0.001 + p.x * 0.01) * 0.3 + 0.7) }
    | .regular => p
  let time := now * 0.001
  let p := { p with y := p.y + sinQ (time + p.x * 0.01) * 0.1 }
  let p := { p with x := p.x + cosQ (time + p.y * 0.01) * 0.05 }
  let x1 := if p.x < -50 then w + 50 else p.x
  let x2 := if x1 > w + 50 then -50 else x1
  let y1 := if p.y < -50 then h + 50 else p.y
  let y2 := if y1 > h + 50 then -50 else y1
  { p with x := x2, y := y2 }

/-- The `prefers-reduced-motion` change listener registered by the
`ParticleSystem` constructor (src/particle-system.js lines 19-28):
`optCount` is the captured `options.count` value. -/
def constructorMediaHandler (m : Bool) (optCount : JSQ) (rand : ℕ → ℚ)
    (piQ : ℚ) (k : ℕ) (s : ParticleSystem) : ParticleSystem × ℕ :=
  let s1 := { s with reducedMotion := m }
  let s2 :=
    if m then { s1 with particleCount := (⌊optCount.orDefault 50 * 0.1⌋ : ℤ) }
    else { s1 with particleCount := optCount.orDefault 50 }
  createParticles rand piQ k s2

/-- The `prefers-reduced-motion` change listener registered by
`ParticleSystem.bindEvents` (src/particle-system.js lines 250-260). -/
def bindEventsMediaHandler (m : Bool) (rand : ℕ → ℚ) (piQ : ℚ) (k : ℕ)
    (s : ParticleSystem) : ParticleSystem × ℕ :=
  let s1 := { s with reducedMotion := m }
  let s2 :=
    if m then { s1 with particleCount := (⌊s1.particleCount * 0.3⌋ : ℤ) }
    else { s1 with particleCount := 50 }
  createParticles rand piQ k s2

/-- A `prefers-reduced-motion` change event delivered to a `ParticleSystem`
instance: both registered listeners fire, in registration order (the
constructor's listener first, then the one added by `bindEvents`). -/
def mediaChange (m : Bool) (optCount : JSQ) (rand : ℕ → ℚ) (piQ : ℚ)
    (k : ℕ) (s : ParticleSystem) : ParticleSystem × ℕ :=
  let r1 := constructorMediaHandler m optCount rand piQ k s
  bindEventsMediaHandler m rand piQ r1.2 r1.1

end ParticleSystem

/-- A sparkle of `ScreenSparklesSystem` (src/screen-sparkles.js lines
66-81). -/
structure SSSparkle where
  x : ℚ
  y : ℚ
  size : ℚ
  opacity : ℚ
  twinkle : ℚ
  twinkleSpeed : ℚ
  driftX : ℚ
  driftY : ℚ
  color : String
  life : ℚ
  maxLife : ℚ
  birthTime : ℚ
deriving Repr, DecidableEq

/-- The mutable state of the `ScreenSparklesSystem` class
(src/screen-sparkles.js lines 5-16). -/
structure ScreenSparklesSystem where
  sparkles : List SSSparkle
  reducedMotion : Bool
  sparkleCount : ℕ
  canvasW : ℚ
  canvasH : ℚ
deriving Repr, DecidableEq

namespace ScreenSparklesSystem

/-- The color array of `getSparkleColor` (src/screen-sparkles.js lines
84-93). -/
def ssColors : List String :=
  ["rgba(255, 255, 255, 0.4)", "rgba(192, 192, 192, 0.3)",
   "rgba(139, 92, 246, 0.3)", "rgba(168, 85, 247, 0.3)",
   "rgba(196, 181, 253, 0.3)", "rgba(220, 220, 220, 0.2)",
   "rgba(124, 58, 237, 0.3)", "rgba(147, 51, 234, 0.3)"]

/-- `ScreenSparklesSystem.createSparkle()` (src/screen-sparkles.js lines
66-81); 10 `Math.random()` samples in literal order, `now` is
`Date.now()`. -/
def createSparkle (rand : ℕ → ℚ) (piQ now : ℚ) (w h : ℚ) (k : ℕ) :
    SSSparkle × ℕ :=
  ({ x := rand k * w
     y := rand (k + 1) * h
     size := rand (k + 2) * 2 + 1
     opacity := rand (k + 3) * 0.5 + 0.2
     twinkle := rand (k + 4) * piQ * 2
     twinkleSpeed := rand (k + 5) * 0.02 + 0.01
     driftX := (rand (k + 6) - 0.5) * 0.1
     driftY := (rand (k + 7) - 0.5) * 0.1
     color := MagicalEffectsSystem.pickColor ssColors (rand (k + 8))
     life := rand (k + 9) * 300 + 200
     maxLife := 0
     birthTime := now }, k + 10)

/-- The loop of `ScreenSparklesSystem.createSparkles`
(src/screen-sparkles.js lines 58-64). -/
def createSparklesList (rand : ℕ → ℚ) (piQ now w h : ℚ) :
    ℕ → ℕ → List SSSparkle × ℕ
  | 0, k => ([], k)
  | n + 1, k =>
      let sk := createSparkle rand piQ now w h k
      let rest := createSparklesList rand piQ now w h n sk.2
      (sk.1 :: rest.1, rest.2)

/-- `ScreenSparklesSystem.createSparkles()` (src/screen-sparkles.js lines
58-64): replaces `sparkles` with `sparkleCount` fresh sparkles. -/
def createSparkles (rand : ℕ → ℚ) (piQ now : ℚ) (k : ℕ)
    (s : ScreenSparklesSystem) : ScreenSparklesSystem × ℕ :=
  let lk := createSparklesList rand piQ now s.canvasW s.canvasH
    s.sparkleCount k
  ({ s with sparkles := lk.1 }, lk.2)

/-- The `prefers-reduced-motion` change listener of
`ScreenSparklesSystem.bindEvents` (src/screen-sparkles.js lines 181-186):
set the flag, set `sparkleCount` to 0 or 12, and recreate the sparkles. -/
def mediaChange (m : Bool) (rand : ℕ → ℚ) (piQ now : ℚ) (k : ℕ)
    (s : ScreenSparklesSystem) : ScreenSparklesSystem × ℕ :=
  let s1 := { s with reducedMotion := m, sparkleCount := if m then 0 else 12 }
  createSparkles rand piQ now k s1

/-- The document click listener of `ScreenSparklesSystem.bindEvents`
(src/screen-sparkles.js lines 189-204): when motion is not reduced and
fewer than 20 sparkles are alive, push three short-lived sparkles (the
delayed truncation is a separate timer callback and is not part of this
event). -/
def clickHandler (rand : ℕ → ℚ) (piQ now : ℚ) (k : ℕ)
    (s : ScreenSparklesSystem) : ScreenSparklesSystem × ℕ :=
  if !s.reducedMotion && s.sparkles.length < 20 then
    let s1 := createSparkle rand piQ now s.canvasW s.canvasH k
    let t1 := { s1.1 with life := 60, twinkleSpeed := s1.1.twinkleSpeed * 2 }
    let s2 := createSparkle rand piQ now s.canvasW s.canvasH s1.2
    let t2 := { s2.1 with life := 60, twinkleSpeed := s2.1.twinkleSpeed * 2 }
    let s3 := createSparkle rand piQ now s.canvasW s.canvasH s2.2
    let t3 := { s3.1 with life := 60, twinkleSpeed := s3.1.twinkleSpeed * 2 }
    ({ s with sparkles := s.sparkles ++ [t1, t2, t3] }, s3.2)
  else (s, k)

end ScreenSparklesSystem

theorem filter_replicate_of_pos {α : Type} (p : α → Bool) (a : α) (n : ℕ)
    (h : p a = true) : (List.replicate n a).filter p = List.replicate n a := by
  induction n with
  | zero => rfl
  | succ n ih => simp [List.replicate_succ, List.filter_cons, h, ih]

/-- A concrete ambient sparkle, as `createAmbientSparkle` pushes it
(src/magical-effects.js lines 280-295) for a sample stream that is
constantly `1/2` on an 800×600 viewport, with `Math.PI` read as 3. -/
def sampleAmbient : MagEffect :=
  MagicalEffectsSystem.createAmbientSparkle 3 (fun _ => (1 : ℚ)/2) 0 800 600
    (MagicalEffectsSystem.initial false)
    |>.effects.getD 0 { etype := EffectType.ambient }

/-- A magical-effects state already holding 50 ambient sparkles. -/
def sampleFullMagical : MagicalEffectsSystem :=
  { effects := List.replicate 50 sampleAmbient, reducedMotion := false
    mouseX := 0, mouseY := 0, lastMouseTime := 0 }

/-- C5 (amended): a click effect at `(100, 100)` with the built-in
6-bubble ring appends exactly 8 effects — the 6 ring bubbles, one expanding
ring, one central glow — each created with `life = 1` (the normalized full
life; the configured `maxLife` values 30, 25 and 20 are the frame
lifetimes, not the initial `life` value). -/
theorem createClickEffect_click_counts (piQ : ℚ) (cosQ sinQ : ℚ → ℚ)
    (rand : ℕ → ℚ) (k : ℕ) (s : MagicalEffectsSystem)
    (h : s.reducedMotion = false) :
    (MagicalEffectsSystem.createClickEffect piQ cosQ sinQ rand k
        100 100 s).effects =
      s.effects.filter (fun e => !e.etype.isClick) ++
        MagicalEffectsSystem.clickNewEffects piQ cosQ sinQ rand k 100 100 ∧
    (MagicalEffectsSystem.clickNewEffects piQ cosQ sinQ rand k
        100 100).length = 8 ∧
    (MagicalEffectsSystem.clickNewEffects piQ cosQ sinQ rand k
        100 100).map MagEffect.etype =
      List.replicate 6 EffectType.bubbleClick ++
        [EffectType.expandingRingClick, EffectType.glowClick] ∧
    (MagicalEffectsSystem.clickNewEffects piQ cosQ sinQ rand k
        100 100).map MagEffect.life = List.replicate 8 (JSQ.num 1) ∧
    (MagicalEffectsSystem.clickNewEffects piQ cosQ sinQ rand k
        100 100).map MagEffect.maxLife =
      List.replicate 6 (JSQ.num 30) ++ [JSQ.num 25, JSQ.num 20] := by
  refine ⟨?_, rfl, rfl, rfl, rfl⟩
  simp [MagicalEffectsSystem.createClickEffect, h]

/-- Witness for C5: on a fresh system with motion enabled, the click at
`(100, 100)` leaves exactly the 8 new effects, all with `life = 1`. -/
theorem createClickEffect_click_counts_witness :
    (MagicalEffectsSystem.createClickEffect 3 (fun _ => 1) (fun _ => 0)
        (fun _ => (1 : ℚ)/2) 0 100 100
        (MagicalEffectsSystem.initial false)).effects.length = 8 ∧
    (MagicalEffectsSystem.clickNewEffects 3 (fun _ => 1) (fun _ => 0)
        (fun _ => (1 : ℚ)/2) 0 100 100).map MagEffect.life =
      List.replicate 8 (JSQ.num 1) := by
  have h := createClickEffect_click_counts 3 (fun _ => 1) (fun _ => 0)
    (fun _ => (1 : ℚ)/2) 0 (MagicalEffectsSystem.initial false) rfl
  refine ⟨?_, h.2.2.2.1⟩
  rw [h.1]
  rfl

/-- Counterexample to C5 as stated: the first created ring bubble has
`life = 1` while its configured `maxLife` is 30, so a created particle's
`life` field does not equal its `maxLife`. -/
theorem createClickEffect_life_differs_from_maxLife :
    ((MagicalEffectsSystem.createClickEffect 3 (fun _ => 1) (fun _ => 0)
        (fun _ => (1 : ℚ)/2) 0 100 100
        (MagicalEffectsSystem.initial false)).effects.head?.map
          (fun e => (e.life, e.maxLife))) =
      some (JSQ.num 1, JSQ.num 30) ∧
    JSQ.num 1 ≠ JSQ.num 30 := by
  refine ⟨rfl, ?_⟩
  simp

/-- C1 (amended): `EffectManager.addEffect` keeps `activeEffects` within
`maxEffects = 50`, and an insertion at capacity drops the first (oldest)
entry before pushing the new one; `MagicalEffectsSystem.effects`, by
contrast, has no insertion-time cap (see the counterexample — only the
ambient-sparkle timer checks the 50 limit). -/
theorem addEffect_capacity (s : EffectManager) (e : EMEffect)
    (hmax : s.maxEffects = 50) (hlen : s.activeEffects.length ≤ 50) :
    (EffectManager.addEffect e s).activeEffects.length ≤ 50 ∧
    (s.activeEffects.length = 50 →
      (EffectManager.addEffect e s).activeEffects =
        s.activeEffects.drop 1 ++ [e]) := by
  unfold EffectManager.addEffect
  rw [hmax]
  constructor
  · by_cases hc : s.activeEffects.length ≥ 50
    · simp only [if_pos hc]
      simp only [List.length_append, List.length_drop, List.length_singleton]
      omega
    · simp only [if_neg hc]
      simp only [List.length_append, List.length_singleton]
      omega
  · intro h50
    have hc : s.activeEffects.length ≥ 50 := le_of_eq h50.symm
    simp only [if_pos hc]

/-- A concrete sparkle effect as `EffectManager.createSparkleEffect` would
hold it. -/
def sampleEMEffect : EMEffect :=
  { id := "effect_1_0", etype := EMType.sparkle, x := JSQ.num 10
    y := JSQ.num 10, startTime := 0, duration := 600
    color := "rgba(255, 255, 255, 0.8)", isActive := true
    opacity := JSQ.num 1, lastUpdateTime := 0 }

/-- An effect manager already at its 50-effect capacity. -/
def sampleFullManager : EffectManager :=
  { cursorTracker := CursorTracker.initial
    activeEffects := List.replicate 50 sampleEMEffect
    effectIdCounter := 50, maxEffects := 50, reducedMotion := false }

/-- Witness for C1: adding a 51st effect to a full 50-effect manager keeps
the length at 50 and evicts the first entry. -/
theorem addEffect_capacity_witness :
    (EffectManager.addEffect sampleEMEffect sampleFullManager).activeEffects.length ≤ 50 ∧
    (EffectManager.addEffect sampleEMEffect sampleFullManager).activeEffects =
      sampleFullManager.activeEffects.drop 1 ++ [sampleEMEffect] := by
  have h := addEffect_capacity sampleFullManager sampleEMEffect rfl
    (by simp [sampleFullManager])
  exact ⟨h.1, h.2 (by simp [sampleFullManager])⟩

/-- Counterexample to C1 as stated: `MagicalEffectsSystem.effects` is not
capacity-bounded on insertion — a click effect on a list already holding 50
ambient sparkles grows it to 58 entries and the 1st entry is still
there. -/
theorem magical_effects_exceed_capacity :
    (MagicalEffectsSystem.createClickEffect 3 (fun _ => 1) (fun _ => 0)
        (fun _ => (1 : ℚ)/2) 0 100 100 sampleFullMagical).effects.length = 58 ∧
    50 < 58 ∧
    (MagicalEffectsSystem.createClickEffect 3 (fun _ => 1) (fun _ => 0)
        (fun _ => (1 : ℚ)/2) 0 100 100 sampleFullMagical).effects.head? =
      some sampleAmbient := by
  refine ⟨?_, by omega, ?_⟩ <;> rfl

theorem createRippleEffect_reduced (now innerW innerH : ℚ) (x y : JSQ)
    (opts : EMOptions) (s : EffectManager) (h : s.reducedMotion = true) :
    EffectManager.createRippleEffect now innerW innerH x y opts s =
      (none, s) := by
  simp [EffectManager.createRippleEffect, h]

theorem createSparkleEffect_reduced (piQ : ℚ) (cosQ sinQ : ℚ → ℚ)
    (rand : ℕ → ℚ) (k : ℕ) (now innerW innerH : ℚ) (x y : JSQ)
    (opts : EMOptions) (s : EffectManager) (h : s.reducedMotion = true) :
    EffectManager.createSparkleEffect piQ cosQ sinQ rand k now innerW innerH
      x y opts s = ([], s) := by
  simp [EffectManager.createSparkleEffect, h]

theorem createRippleEffect_invalid (now innerW innerH : ℚ) (x y : JSQ)
    (opts : EMOptions) (s : EffectManager)
    (hx : x ≠ JSQ.undef) (hy : y ≠ JSQ.undef)
    (hval : EffectManager.isValidPosition innerW innerH x y = false) :
    EffectManager.createRippleEffect now innerW innerH x y opts s =
      (none, s) := by
  unfold EffectManager.createRippleEffect
  split
  · rfl
  · simp [if_pos hx, if_pos hy, hval]

theorem createSparkleEffect_invalid (piQ : ℚ) (cosQ sinQ : ℚ → ℚ)
    (rand : ℕ → ℚ) (k : ℕ) (now innerW innerH : ℚ) (x y : JSQ)
    (opts : EMOptions) (s : EffectManager)
    (hx : x ≠ JSQ.undef) (hy : y ≠ JSQ.undef)
    (hval : EffectManager.isValidPosition innerW innerH x y = false) :
    EffectManager.createSparkleEffect piQ cosQ sinQ rand k now innerW innerH
      x y opts s = ([], s) := by
  unfold EffectManager.createSparkleEffect
  split
  · rfl
  · simp [if_pos hx, if_pos hy, hval]

theorem createClickEffect_reduced (piQ : ℚ) (cosQ sinQ : ℚ → ℚ)
    (rand : ℕ → ℚ) (k : ℕ) (now innerW innerH : ℚ) (x y : JSQ)
    (opts : EMOptions) (s : EffectManager) (h : s.reducedMotion = true) :
    EffectManager.createClickEffect piQ cosQ sinQ rand k now innerW innerH
      x y opts s = ((none, []), s) := by
  simp [EffectManager.createClickEffect, h]

theorem createClickEffect_invalid (piQ : ℚ) (cosQ sinQ : ℚ → ℚ)
    (rand : ℕ → ℚ) (k : ℕ) (now innerW innerH : ℚ) (x y : JSQ)
    (opts : EMOptions) (s : EffectManager)
    (hx : x ≠ JSQ.undef) (hy : y ≠ JSQ.undef)
    (hval : EffectManager.isValidPosition innerW innerH x y = false) :
    EffectManager.createClickEffect piQ cosQ sinQ rand k now innerW innerH
      x y opts s = ((none, []), s) := by
  unfold EffectManager.createClickEffect
  split
  · rfl
  · simp only [createRippleEffect_invalid, createSparkleEffect_invalid,
      hx, hy, hval, ne_eq, not_false_eq_true]

/-- C6 (amended): the `EffectManager` emitters (ripple, sparkle, click) are
silent no-ops — empty result, no effect appended, manager and tracker state
untouched — whenever motion is reduced or the given position is rejected by
`EffectManager.isValidPosition`; the `MagicalEffectsSystem` emitters,
however, only gate on reduced motion and perform no position validation
(see the counterexample). -/
theorem emitters_silent_noop (piQ : ℚ) (cosQ sinQ : ℚ → ℚ)
    (rand : ℕ → ℚ) (k : ℕ) (now innerW innerH : ℚ) (x y : JSQ)
    (opts : EMOptions) (s : EffectManager) :
    (s.reducedMotion = true →
      EffectManager.createRippleEffect now innerW innerH x y opts s =
        (none, s) ∧
      EffectManager.createSparkleEffect piQ cosQ sinQ rand k now innerW
        innerH x y opts s = ([], s) ∧
      EffectManager.createClickEffect piQ cosQ sinQ rand k now innerW innerH
        x y opts s = ((none, []), s)) ∧
    (x ≠ JSQ.undef → y ≠ JSQ.undef →
      EffectManager.isValidPosition innerW innerH x y = false →
      EffectManager.createRippleEffect now innerW innerH x y opts s =
        (none, s) ∧
      EffectManager.createSparkleEffect piQ cosQ sinQ rand k now innerW
        innerH x y opts s = ([], s) ∧
      EffectManager.createClickEffect piQ cosQ sinQ rand k now innerW innerH
        x y opts s = ((none, []), s)) := by
  constructor
  · intro h
    exact ⟨createRippleEffect_reduced now innerW innerH x y opts s h,
      createSparkleEffect_reduced piQ cosQ sinQ rand k now innerW innerH
        x y opts s h,
      createClickEffect_reduced piQ cosQ sinQ rand k now innerW innerH
        x y opts s h⟩
  · intro hx hy hval
    exact ⟨createRippleEffect_invalid now innerW innerH x y opts s hx hy hval,
      createSparkleEffect_invalid piQ cosQ sinQ rand k now innerW innerH
        x y opts s hx hy hval,
      createClickEffect_invalid piQ cosQ sinQ rand k now innerW innerH
        x y opts s hx hy hval⟩

/-- Witness for C6: a reduced-motion manager ignores a sparkle call at
`(10, 10)`, and a motion-enabled manager ignores a sparkle call at the
invalid position `(-5, -5)`. -/
theorem emitters_silent_noop_witness :
    EffectManager.createSparkleEffect 3 (fun _ => 1) (fun _ => 0)
        (fun _ => (1 : ℚ)/2) 0 0 800 600 (JSQ.num 10) (JSQ.num 10) {}
        (EffectManager.initial CursorTracker.initial true) =
      ([], EffectManager.initial CursorTracker.initial true) ∧
    EffectManager.createSparkleEffect 3 (fun _ => 1) (fun _ => 0)
        (fun _ => (1 : ℚ)/2) 0 0 800 600 (JSQ.num (-5)) (JSQ.num (-5)) {}
        (EffectManager.initial CursorTracker.initial false) =
      ([], EffectManager.initial CursorTracker.initial false) := by
  have h1 := (emitters_silent_noop 3 (fun _ => 1) (fun _ => 0)
    (fun _ => (1 : ℚ)/2) 0 0 800 600 (JSQ.num 10) (JSQ.num 10) {}
    (EffectManager.initial CursorTracker.initial true)).1 rfl
  have h2 := (emitters_silent_noop 3 (fun _ => 1) (fun _ => 0)
    (fun _ => (1 : ℚ)/2) 0 0 800 600 (JSQ.num (-5)) (JSQ.num (-5)) {}
    (EffectManager.initial CursorTracker.initial false)).2
    (by simp) (by simp)
    (by norm_num [EffectManager.isValidPosition, JSQ.isNumberType,
      JSQ.isFiniteJ, JSQ.geJ, JSQ.leJ])
  exact ⟨h1.2.1, h2.2.1⟩

/-- Counterexample to C6 as stated: `MagicalEffectsSystem.createClickEffect`
performs no position validation — called at `(-5, -5)`, a position rejected
by `EffectManager.isValidPosition`, it still appends its 8 effects. -/
theorem magical_click_ignores_invalid_position :
    EffectManager.isValidPosition 800 600 (JSQ.num (-5)) (JSQ.num (-5)) =
      false ∧
    (MagicalEffectsSystem.createClickEffect 3 (fun _ => 1) (fun _ => 0)
        (fun _ => (1 : ℚ)/2) 0 (-5) (-5)
        (MagicalEffectsSystem.initial false)).effects.length = 8 := by
  constructor
  · norm_num [EffectManager.isValidPosition, JSQ.isNumberType,
      JSQ.isFiniteJ, JSQ.geJ, JSQ.leJ]
  · rfl

set_option maxHeartbeats 800000 in
theorem updateEffectBranch_life_eq (sinQ cosQ : ℚ → ℚ) (now : ℚ)
    (e : MagEffect) :
    (MagicalEffectsSystem.updateEffectBranch sinQ cosQ now e).life = e.life ∧
    (MagicalEffectsSystem.updateEffectBranch sinQ cosQ now e).maxLife =
      e.maxLife := by
  unfold MagicalEffectsSystem.updateEffectBranch
  cases he : e.etype <;> exact ⟨rfl, rfl⟩

set_option maxHeartbeats 800000 in
theorem updateParticle_life_eq (scrollY now : ℚ) (sinQ cosQ : ℚ → ℚ)
    (hov : Bool) (w h : ℚ) (p : PParticle) :
    (ParticleSystem.updateParticle scrollY now sinQ cosQ hov w h p).life =
      p.life ∧
    (ParticleSystem.updateParticle scrollY now sinQ cosQ hov w h p).maxLife =
      p.maxLife := by
  obtain ⟨px, py, pvx, pvy, psize, pcolor, pop, povx, povy, pt, pl, pml,
    pg, ptw, ptws⟩ := p
  cases pt <;> exact ⟨rfl, rfl⟩

theorem updateEffect_snd_eq (sinQ cosQ : ℚ → ℚ) (now : ℚ) (e : MagEffect) :
    (MagicalEffectsSystem.updateEffect sinQ cosQ now e).2 =
      (MagicalEffectsSystem.updateEffect sinQ cosQ now e).1.life.gtJ
        (JSQ.num 0) := rfl

theorem updateEffectCore_life_eq (e : MagEffect) :
    (MagicalEffectsSystem.updateEffectCore e).life =
      e.life.sub ((JSQ.num 1).div e.maxLife) := rfl

/-- C4 (amended): in `MagicalEffectsSystem`, every `updateEffect` call
decrements `life` by exactly `1/maxLife` (a strict decrease since
`maxLife > 0`), an effect survives `animate`'s filter exactly when the
decremented `life` is still positive, and every effect handed to
`drawEffect` in a frame has `life > 0`; in `ParticleSystem`, by contrast,
`updateParticle` never changes `life` at all (the claim's universal strict
decrease fails there, see the counterexample). -/
theorem particle_life_spec (sinQ cosQ : ℚ → ℚ) (now scrollY : ℚ)
    (hov : Bool) (w h : ℚ) :
    (∀ (e : MagEffect) (l mL : ℚ), e.life = JSQ.num l →
      e.maxLife = JSQ.num mL → 0 < mL →
      (MagicalEffectsSystem.updateEffect sinQ cosQ now e).1.life =
        JSQ.num (l - 1 / mL) ∧
      l - 1 / mL < l ∧
      ((MagicalEffectsSystem.updateEffect sinQ cosQ now e).2 = true ↔
        0 < l - 1 / mL)) ∧
    (∀ (s : MagicalEffectsSystem),
      (MagicalEffectsSystem.animateFrame sinQ cosQ now s).1.effects =
        (MagicalEffectsSystem.animateFrame sinQ cosQ now s).2 ∧
      ∀ d ∈ (MagicalEffectsSystem.animateFrame sinQ cosQ now s).2,
        d.life.gtJ (JSQ.num 0) = true) ∧
    (∀ p : PParticle,
      (ParticleSystem.updateParticle scrollY now sinQ cosQ hov w h p).life =
        p.life) := by
  refine ⟨?_, ?_, ?_⟩
  · intro e l mL hl hm hpos
    have hcore : (MagicalEffectsSystem.updateEffectCore e).life =
        JSQ.num (l - 1 / mL) := by
      rw [updateEffectCore_life_eq, hl, hm]
      simp [JSQ.sub, JSQ.div, JSQ.add, JSQ.neg, hpos.ne', sub_eq_add_neg]
    have hbr := updateEffectBranch_life_eq sinQ cosQ now
      (MagicalEffectsSystem.updateEffectCore e)
    have hlife : (MagicalEffectsSystem.updateEffect sinQ cosQ now e).1.life =
        JSQ.num (l - 1 / mL) := by
      show (MagicalEffectsSystem.updateEffectBranch sinQ cosQ now
        (MagicalEffectsSystem.updateEffectCore e)).life = _
      rw [hbr.1, hcore]
    refine ⟨hlife, sub_lt_self l (by positivity), ?_⟩
    rw [updateEffect_snd_eq, hlife]
    simp [JSQ.gtJ, JSQ.ltJ]
  · intro s
    refine ⟨rfl, ?_⟩
    intro d hd
    simp only [MagicalEffectsSystem.animateFrame, List.mem_map,
      List.mem_filter] at hd
    obtain ⟨pair, ⟨hmem, halive⟩, hfst⟩ := hd
    obtain ⟨e, -, he⟩ := hmem
    subst he
    rw [← hfst]
    rw [← updateEffect_snd_eq]
    exact halive
  · intro p
    exact (updateParticle_life_eq scrollY now sinQ cosQ hov w h p).1

/-- Witness for C4: the central-glow click effect (`life = 1`,
`maxLife = 20`) updates to `life = 19/20 < 1` and stays alive. -/
theorem particle_life_spec_witness :
    (MagicalEffectsSystem.updateEffect (fun _ => 0) (fun _ => 0) 0
        (MagicalEffectsSystem.clickGlow 100 100)).1.life =
      JSQ.num (1 - 1 / 20) ∧
    ((1 : ℚ) - 1 / 20 < 1) ∧
    (MagicalEffectsSystem.updateEffect (fun _ => 0) (fun _ => 0) 0
        (MagicalEffectsSystem.clickGlow 100 100)).2 = true := by
  have h := (particle_life_spec (fun _ => 0) (fun _ => 0) 0 0 false 800 600).1
    (MagicalEffectsSystem.clickGlow 100 100) 1 20 rfl rfl (by norm_num)
  exact ⟨h.1, h.2.1, h.2.2.mpr (by norm_num)⟩

/-- Counterexample to C4 as stated: `ParticleSystem.updateParticle` leaves
the particle's `life` untouched — for a concrete regular particle with
`life = 1` the updated particle still has `life = 1`, so the per-frame
updater of this effect system does not strictly decrease `life`. -/
theorem particleSystem_life_constant :
    (ParticleSystem.updateParticle 0 0 (fun _ => 0) (fun _ => 0) false 800 600
      { x := 100, y := 100, vx := 0, vy := 0, size := 2, color := "#8b5cf6"
        opacity := 1, originalVx := 0, originalVy := 0
        ptype := PType.regular, life := 1, maxLife := 1 }).life = 1 := by
  norm_num [ParticleSystem.updateParticle]

theorem createParticlesList_length (rand : ℕ → ℚ) (piQ w h : ℚ)
    (colors : List String) (n k : ℕ) :
    (ParticleSystem.createParticlesList rand piQ w h colors n k).1.length =
      n := by
  induction n generalizing k with
  | zero => rfl
  | succ n ih => simp [ParticleSystem.createParticlesList, ih]

theorem ps_mediaChange_true_length (rand : ℕ → ℚ) (piQ : ℚ) (k : ℕ)
    (ps : ParticleSystem) :
    (ParticleSystem.mediaChange true JSQ.undef rand piQ k ps).1.particles.length
      = 1 := by
  simp only [ParticleSystem.mediaChange, ParticleSystem.constructorMediaHandler,
    ParticleSystem.bindEventsMediaHandler, ParticleSystem.createParticles,
    if_true, createParticlesList_length]
  norm_num [JSQ.orDefault, EffectManager.loopCount]

/-- C3 (amended): while reduced motion is active no modelled emitter of
`MagicalEffectsSystem` (trail, click, hover, ambient), `EffectManager`
(ripple, sparkle) or `ScreenSparklesSystem` (click extras) adds a particle,
and on the transition into reduced motion the `MagicalEffectsSystem`,
`EffectManager` and `ScreenSparklesSystem` containers are cleared to empty;
`ParticleSystem` is the exception: its two reduced-motion listeners shrink
the count to `⌊⌊50·0.1⌋·0.3⌋ = 1` and repopulate the container — creating
fresh particles while reduced motion is active instead of clearing it. -/
theorem reducedMotion_gating (piQ : ℚ) (cosQ sinQ : ℚ → ℚ) (rand : ℕ → ℚ)
    (k : ℕ) (now innerW innerH x y rectL rectT rectW rectH : ℚ)
    (xj yj : JSQ) (opts : EMOptions) (ms : MagicalEffectsSystem)
    (em : EffectManager) (ss : ScreenSparklesSystem) (ps : ParticleSystem) :
    (ms.reducedMotion = true →
      MagicalEffectsSystem.createMagicalTrail piQ rand k now x y ms = ms ∧
      MagicalEffectsSystem.createClickEffect piQ cosQ sinQ rand k x y ms =
        ms ∧
      MagicalEffectsSystem.createHoverEffect piQ cosQ sinQ rand k
        rectL rectT rectW rectH ms = ms ∧
      MagicalEffectsSystem.createAmbientSparkle piQ rand k innerW innerH ms =
        ms) ∧
    (em.reducedMotion = true →
      EffectManager.createRippleEffect now innerW innerH xj yj opts em =
        (none, em) ∧
      EffectManager.createSparkleEffect piQ cosQ sinQ rand k now innerW
        innerH xj yj opts em = ([], em)) ∧
    (ss.reducedMotion = true →
      ScreenSparklesSystem.clickHandler rand piQ now k ss = (ss, k)) ∧
    (MagicalEffectsSystem.mediaChange true ms).effects = [] ∧
    (EffectManager.mediaChange true em).activeEffects = [] ∧
    (ScreenSparklesSystem.mediaChange true rand piQ now k ss).1.sparkles =
      [] ∧
    (ParticleSystem.mediaChange true JSQ.undef rand piQ k ps).1.particles.length
      = 1 ∧ (1 : ℕ) ≠ 0 := by
  refine ⟨?_, ?_, ?_, rfl, rfl, rfl, ps_mediaChange_true_length rand piQ k ps,
    by omega⟩
  · intro h
    refine ⟨?_, ?_, ?_, ?_⟩ <;>
      simp [MagicalEffectsSystem.createMagicalTrail,
        MagicalEffectsSystem.createClickEffect,
        MagicalEffectsSystem.createHoverEffect,
        MagicalEffectsSystem.createAmbientSparkle, h]
  · intro h
    exact ⟨createRippleEffect_reduced now innerW innerH xj yj opts em h,
      createSparkleEffect_reduced piQ cosQ sinQ rand k now innerW innerH
        xj yj opts em h⟩
  · intro h
    simp [ScreenSparklesSystem.clickHandler, h]

/-- Witness for C3: with reduced motion active on concrete states, the
click emitter leaves the magical system unchanged, the sparkle emitter
returns the empty list, and the reduced-motion transition leaves the
screen-sparkles container empty while the particle system keeps one fresh
particle. -/
theorem reducedMotion_gating_witness :
    MagicalEffectsSystem.createClickEffect 3 (fun _ => 1) (fun _ => 0)
        (fun _ => (1 : ℚ)/2) 0 100 100 (MagicalEffectsSystem.initial true) =
      MagicalEffectsSystem.initial true ∧
    EffectManager.createSparkleEffect 3 (fun _ => 1) (fun _ => 0)
        (fun _ => (1 : ℚ)/2) 0 0 800 600 (JSQ.num 100) (JSQ.num 100) {}
        (EffectManager.initial CursorTracker.initial true) =
      ([], EffectManager.initial CursorTracker.initial true) ∧
    (ScreenSparklesSystem.mediaChange true (fun _ => (1 : ℚ)/2) 3 0 0
        { sparkles := [], reducedMotion := false, sparkleCount := 12
          canvasW := 800, canvasH := 600 }).1.sparkles = [] ∧
    (ParticleSystem.mediaChange true JSQ.undef (fun _ => (1 : ℚ)/2) 3 0
        { particles := [], particleCount := 50
          colors := ["#8b5cf6", "#c084fc", "#d8b4fe"], isHeroHovered := false
          reducedMotion := false, canvasW := 800
          canvasH := 600 }).1.particles.length = 1 := by
  have h := reducedMotion_gating 3 (fun _ => 1) (fun _ => 0)
    (fun _ => (1 : ℚ)/2) 0 0 800 600 100 100 0 0 0 0
    (JSQ.num 100) (JSQ.num 100) {}
    (MagicalEffectsSystem.initial true)
    (EffectManager.initial CursorTracker.initial true)
    { sparkles := [], reducedMotion := false, sparkleCount := 12
      canvasW := 800, canvasH := 600 }
    { particles := [], particleCount := 50
      colors := ["#8b5cf6", "#c084fc", "#d8b4fe"], isHeroHovered := false
      reducedMotion := false, canvasW := 800, canvasH := 600 }
  exact ⟨(h.1 rfl).2.1, (h.2.1 rfl).2, h.2.2.2.2.2.1, h.2.2.2.2.2.2.1⟩

/-- A concrete regular particle, of the shape `createParticle` produces. -/
def samplePParticle : PParticle :=
  { x := 400, y := 300, vx := 0, vy := 0, size := 2, color := "#8b5cf6"
    opacity := 1, originalVx := 0, originalVy := 0, ptype := PType.regular
    life := 1, maxLife := 1 }

/-- Counterexample to C3 as stated: on the reduced-motion transition, a
`ParticleSystem` holding 50 particles is not cleared — its two listeners
recreate a container holding 1 fresh particle (and so also create a
particle while reduced motion is active). -/
theorem particleSystem_not_cleared :
    (ParticleSystem.mediaChange true JSQ.undef (fun _ => (1 : ℚ)/2) 3 0
        { particles := List.replicate 50 samplePParticle, particleCount := 50
          colors := ["#8b5cf6", "#c084fc", "#d8b4fe"], isHeroHovered := false
          reducedMotion := false, canvasW := 800
          canvasH := 600 }).1.particles.length = 1 ∧ (1 : ℕ) ≠ 0 := by
  exact ⟨ps_mediaChange_true_length (fun _ => (1 : ℚ)/2) 3 0 _, by omega⟩
